import Mathlib

/-!
# acciopassword: access counter, middleware pipeline, handlers and server

A shallow embedding of `internal/database/database.go`, of the middleware
links under `internal/server/middleware`, of the handlers under
`internal/server/handler` and of `internal/server/server.go` and
`internal/config/config.go`, followed by the properties proved about them.

Conventions of the embedding.

* A Go `error` is an `Option String`: `none` is `nil`, `some msg` is a non-nil
  error carrying the message the source wraps it with.
* The SQLite file behind `*sql.DB` is the list of rows of its `counter` table.
  What `database/sql` may answer during one call (an error from `Begin`,
  `Prepare`, `Exec`, `Commit` or `Rollback`) is an explicit argument of the
  call, so every theorem quantifies over the behaviour of the driver.
* `uint64` values are naturals, reduced modulo `2 ^ 64` where the source does
  arithmetic on them.
* `sync.Mutex` sections are executed as a whole: the embedding is sequential.
* A handler is a function from the exchange so far (what was written to the
  response writer, what was logged) and the request to an outcome: it returns
  or it panics. What the generator, `json.Marshal` and `w.Write` answer is an
  argument of the handler.
-/

namespace database

/-! ## Constants -/

/-- ErrNilLogger is returned when a nil logger is passed to a function. -/
def ErrNilLogger : String := "logger cannot be nil"

/-- ErrEmptyDSN is returned when an empty DSN is passed to a function. -/
def ErrEmptyDSN : String := "dsn cannot be empty"

/-- CounterTypeDiceware is the counter type for diceware passwords. -/
def CounterTypeDiceware : String := "Diceware"

/-- CounterTypeRandom is the counter type for random passwords. -/
def CounterTypeRandom : String := "Random"

/-- CounterTypePIN is the counter type for PINs. -/
def CounterTypePIN : String := "PIN"

/-- Number of values of Go's `uint64`. -/
def uint64Size : Nat := 2 ^ 64

/-- The first count that SQLite no longer holds as an INTEGER: its integers
are signed and 64 bits wide, so they end at `2 ^ 63 - 1`. -/
def integerLimit : Nat := 2 ^ 63

/-! ## The backing store -/

/-- One row `(type, count)` of the `counter` table. A count below
`integerLimit` is an INTEGER of SQLite. A count from `integerLimit` on stands
for the REAL that SQLite stores once `count + 1` has left the integers: the
sum `2 ^ 63 - 1 + 1` is kept as the floating-point number `2 ^ 63`. -/
abbrev Row := String × Nat

/-- Contents of the `counter` table, in the order a `SELECT` returns the rows. -/
abbrev Table := List Row

/-- The count stored for `kind`, if the table has a row for it. With several
rows of the same type the last one is reported. -/
def committed : Table → String → Option Nat
  | [], _ => none
  | (ty, c) :: rest, kind =>
    match committed rest kind with
    | some v => some v
    | none => if ty = kind then some c else none

/-- The persisted count for `kind`: the stored count, 0 when there is no row. -/
def persisted (t : Table) (kind : String) : Nat :=
  (committed t kind).getD 0

/-- The expression `count + 1` as SQLite evaluates it: an INTEGER is raised by
one, the largest one turning into the REAL `2 ^ 63`; on a REAL of that size
adding one changes nothing, the sum being rounded back to it. -/
def addOne (count : Nat) : Nat :=
  if count < integerLimit then count + 1 else count

/-- The statement `UPDATE counter SET count = count + 1 WHERE type = ?`: every
row of the given type gets its count raised as `addOne` says; a type without
a row changes nothing and is no error. -/
def update (t : Table) (counterType : String) : Table :=
  t.map (fun r => if r.1 = counterType then (r.1, addOne r.2) else r)

/-- Modelled from the spec: the embedded `schema.sql`, which is not among the
sources. The spec says of it that all kinds are created, with count 0 if
absent, when the store is opened; rows already present are kept. -/
def schema (t : Table) : Table :=
  t ++ ([CounterTypeDiceware, CounterTypeRandom, CounterTypePIN].filter
    (fun k => (committed t k).isNone)).map (fun k => (k, 0))

/-- A transaction of `database/sql`: the committed table, the table as the
transaction sees it, and whether `Commit` or `Rollback` has already ended it. -/
structure Tx where
  store : Table
  work : Table
  done : Bool

/-- The error `database/sql` returns for `Commit` or `Rollback` on a
transaction that has already been committed or rolled back. -/
def ErrTxDone : String := "sql: transaction has already been committed or rolled back"

/-- The method `db.Begin()` when it succeeds. -/
def Begin (store : Table) : Tx :=
  { store := store, work := store, done := false }

/-- The method `stmt.Exec(counterType)` of the prepared `UPDATE` when it succeeds. -/
def Tx.Exec (tx : Tx) (counterType : String) : Tx :=
  { tx with work := update tx.work counterType }

/-- The method `tx.Rollback()`: the pending changes are dropped. `fails` says
whether the driver reports an error while doing so. -/
def Tx.Rollback (tx : Tx) (fails : Bool) : Tx × Option String :=
  if tx.done then (tx, some ErrTxDone)
  else ({ tx with work := tx.store, done := true },
    if fails then some "rollback failed" else none)

/-- The method `tx.Commit()`: the pending changes become the committed table,
unless the driver reports an error (`fails`), in which case nothing is
persisted. -/
def Tx.Commit (tx : Tx) (fails : Bool) : Tx × Option String :=
  if tx.done then (tx, some ErrTxDone)
  else if fails then ({ tx with work := tx.store, done := true }, some "commit failed")
  else ({ tx with store := tx.work, done := true }, none)

/-! ## The store -/

/-- The in-memory mirror `map[string]uint64`; a key that is absent reads 0. -/
abbrev Counters := String → Nat

/-- The assignment `counters[counterType] = count`. -/
def Counters.set (m : Counters) (counterType : String) (count : Nat) : Counters :=
  fun k => if k = counterType then count else m k

/-- DB wraps the database connection and stores the access counter. The field
`logger` holds the messages handed to the logger so far. -/
structure DB where
  db : Table
  logger : List String
  count : Counters

/-- What the driver answers during one `Open`: an error from `sql.Open`, from
executing the schema, from the `SELECT`, or from `rows.Err()`. -/
structure OpenFaults where
  openErr : Bool := false
  schemaErr : Bool := false
  queryErr : Bool := false
  rowsErr : Bool := false

/-- The loop `for rows.Next()` of `Open`: each row is scanned into a `string`
and a `uint64` and stored in the map; a count that is no longer an INTEGER (a
REAL such as `9.223372036854776e+18`) makes `rows.Scan` fail. -/
def scanRows : Table → Counters → Except String Counters
  | [], counters => .ok counters
  | (counterType, count) :: rest, counters =>
    if count < integerLimit then scanRows rest (counters.set counterType count)
    else .error "failed to scan access counters"

/-- Open opens a database connection and returns a DB instance. `logger` is
`none` for a nil logger; `target` is the table found behind `dsn`. -/
def Open (logger : Option (List String)) (dsn : String) (f : OpenFaults)
    (target : Table) : Except String DB :=
  match logger with
  | none => .error ErrNilLogger
  | some lg =>
    if dsn = "" then .error ErrEmptyDSN
    else if f.openErr then .error "failed to open database"
    else if f.schemaErr then .error "failed to create schema"
    else
      let db := schema target
      if f.queryErr then .error "failed to get access counters"
      else
        match scanRows db (fun _ => 0) with
        | .error e => .error e
        | .ok counters =>
          if f.rowsErr then .error "failed to get access counters"
          else .ok { db := db, logger := lg, count := counters }

/-- Close closes the database connection; the committed table stays behind. -/
def Close (d : DB) (closeErr : Bool) : Table × Option String :=
  (d.db, if closeErr then some "failed to close database" else none)

/-- Count returns the current access counter for the given type. -/
def Count (d : DB) (counterType : String) : Nat :=
  d.count counterType

/-- What the driver answers during one `Increment`: for each of `Begin`,
`Prepare`, `Exec`, `Commit` and `Rollback`, whether it returns an error. -/
structure Faults where
  beginErr : Bool := false
  prepareErr : Bool := false
  execErr : Bool := false
  commitErr : Bool := false
  rollbackErr : Bool := false
deriving DecidableEq, Repr

/-- A call made on the transaction by the deferred function of `Increment`. -/
inductive TxOp where
  | Rollback
  | Commit
deriving DecidableEq, Repr

/-- The deferred function of `Increment`, on the path where no panic is in
flight (`recover()` returns nil; nothing in the body panics on a store made by
`Open`). `err` is the variable `err` of `Increment` when the body returns. The
function rolls back when `err` is non-nil and then, in every case, calls
`Commit`; it assigns the result to `err`, which is not the result of
`Increment`, and logs it when non-nil. -/
def finalizer (f : Faults) (logger : List String) (tx : Tx) (err : Option String) :
    Tx × List String × List TxOp :=
  let afterRollback : Tx × List String × List TxOp :=
    match err with
    | some _ =>
      let r := tx.Rollback f.rollbackErr
      (r.1, if r.2.isSome then logger ++ ["failed to rollback transaction"] else logger,
        [TxOp.Rollback])
    | none => (tx, logger, [])
  let c := afterRollback.1.Commit f.commitErr
  (c.1,
    if c.2.isSome then afterRollback.2.1 ++ ["failed to commit transaction"]
    else afterRollback.2.1,
    afterRollback.2.2 ++ [TxOp.Commit])

/-- The outcome of one `Increment`: the store afterwards, the returned error,
and the calls the deferred function made on the transaction. -/
structure IncrementResult where
  d : DB
  err : Option String
  ops : List TxOp

/-- Increment increments the access counter for the given type and stores the
access in the database. -/
def Increment (d : DB) (f : Faults) (counterType : String) : IncrementResult :=
  if f.beginErr then
    { d := d, err := some "failed to begin transaction", ops := [] }
  else
    let tx := Begin d.db
    if f.prepareErr then
      let fin := finalizer f d.logger tx (some "prepare failed")
      { d := { d with db := fin.1.store, logger := fin.2.1 },
        err := some "failed to prepare statement", ops := fin.2.2 }
    else if f.execErr then
      let fin := finalizer f d.logger tx (some "exec failed")
      { d := { d with db := fin.1.store, logger := fin.2.1 },
        err := some "failed to increment access counter", ops := fin.2.2 }
    else
      let tx := tx.Exec counterType
      let count := d.count.set counterType ((d.count counterType + 1) % uint64Size)
      let fin := finalizer f d.logger tx none
      { d := { db := fin.1.store, logger := fin.2.1, count := count },
        err := none, ops := fin.2.2 }

/-- A sequence of `Increment` calls, each with its counter type and with what
the driver answers during it, run one after the other. -/
def runIncrements (d : DB) : List (String × Faults) → DB
  | [] => d
  | (counterType, f) :: rest => runIncrements (Increment d f counterType).d rest

/-- The call returns nil although `Commit` failed: `Begin`, `Prepare` and `Exec`
succeeded and the driver reports an error on `Commit`. -/
def commitLost (f : Faults) : Bool :=
  !f.beginErr && !f.prepareErr && !f.execErr && f.commitErr

/-- Every call of the sequence returns nil. -/
def allNil (d : DB) : List (String × Faults) → Bool
  | [] => true
  | (counterType, f) :: rest =>
    (Increment d f counterType).err.isNone && allNil (Increment d f counterType).d rest

/-- The mirror holds, for every type whose row is still an INTEGER, the
committed count. -/
def Agrees (d : DB) : Prop :=
  ∀ k v, committed d.db k = some v → v < integerLimit → d.count k = v

end database

/-! ## Requests, responses and handlers -/

namespace http

/-- The constants `http.MethodGet`, `http.MethodHead` and `http.MethodOptions`. -/
def MethodGet : String := "GET"
def MethodHead : String := "HEAD"
def MethodOptions : String := "OPTIONS"

/-- The status codes the links use. -/
def StatusBadRequest : Nat := 400
def StatusMethodNotAllowed : Nat := 405
def StatusInternalServerError : Nat := 500

/-- The type `http.Header`, keyed by canonical header name. -/
abbrev Header := List (String × String)

/-- The method `Header.Get`: the value stored for the key, the empty string
when there is none. -/
def Header.Get (h : Header) (key : String) : String :=
  (h.lookup key).getD ""

/-- The part of `*http.Request` the links and handlers read. -/
structure Request where
  Method : String
  Header : Header
  Query : List (String × String)

/-- The method `r.UserAgent()`: the `User-Agent` header of the request. -/
def Request.UserAgent (r : Request) : String :=
  r.Header.Get "User-Agent"

end http

namespace cerrors

/-- The type `cerrors.ErrorResponse`: the standard error shape. -/
structure ErrorResponse where
  Code : Nat
  Message : String
deriving DecidableEq, Repr

end cerrors

namespace http

/-- What a link or handler did to the `http.ResponseWriter`. -/
inductive Written where
  | header (key value : String)
  | status (code : Nat)
  | body (data : String)
  | error (resp : cerrors.ErrorResponse)
deriving DecidableEq, Repr

/-- The effects of serving one request so far: what was written to the
response writer, in order, and the messages handed to the logger. -/
structure Exchange where
  response : List Written
  logger : List String
deriving DecidableEq, Repr

/-- How a call of `ServeHTTP` ends: it returns, or it panics with a value;
either way the effects it had until then stay. -/
inductive Outcome where
  | returned (x : Exchange)
  | panicked (v : String) (x : Exchange)
deriving DecidableEq, Repr

/-- The effects a call of `ServeHTTP` had when it ended. -/
def Outcome.exchange : Outcome → Exchange
  | .returned x => x
  | .panicked _ x => x

/-- The interface `http.Handler`: `ServeHTTP(w, r)`, with the response writer
and the logger passed as the exchange so far. -/
abbrev Handler := Exchange → Request → Outcome

end http

namespace cerrors

/-- Modelled from the spec: the function `cerrors.JSON`, whose package is not
among the sources. The spec gives the standard error shape as the JSON object
of `code` and `message`, emitted with the corresponding HTTP status code; the
emission is recorded as one `Written.error` carrying both. -/
def JSON (x : http.Exchange) (resp : ErrorResponse) : http.Exchange :=
  { x with response := x.response ++ [http.Written.error resp] }

end cerrors

namespace middleware

open http

/-- The link `AcceptRequests` of accept_requests.go. -/
def AcceptRequests (next : Handler) : Handler := fun w r =>
  if r.Method ≠ MethodGet ∧ r.Method ≠ MethodHead ∧ r.Method ≠ MethodOptions then
    .returned (cerrors.JSON w
      { Code := StatusMethodNotAllowed,
        Message := "Method " ++ r.Method ++ " not allowed. Must be GET, HEAD, or OPTIONS." })
  else
    next w r

/-- UserAgent ensures that the request has a valid user agent. -/
def UserAgent (next : Handler) : Handler := fun w r =>
  if r.UserAgent = "" then
    .returned (cerrors.JSON w
      { Code := StatusBadRequest,
        Message := "User agent is missing. Please provide a valid user agent." })
  else
    next w r

/-- PanicRecovery tries to recover from panics and returns a 500 error if there
was one. The deferred function runs when `next.ServeHTTP` has returned or
panicked; `recover()` yields the value of a panic in flight, which is logged,
and the panic stops there. -/
def PanicRecovery (next : Handler) : Handler := fun w r =>
  match next w r with
  | .returned x => .returned x
  | .panicked v x =>
    .returned (cerrors.JSON { x with logger := x.logger ++ ["panic recovered: " ++ v] }
      { Code := StatusInternalServerError,
        Message := "Internal server error. Please try again later." })

end middleware

namespace config

/-- TLS represents the TLS configuration. -/
structure TLS where
  Certificate : String
  Key : String
  Version : String

/-- Server represents the server configuration, its TLS object present. -/
structure Server where
  TLS : TLS
  Address : String
  PID : String

/-- Database represents the database configuration. -/
structure Database where
  DSN : String

/-- Config represents the application configuration, as `LoadConfig` returns
it and `server.New` reads it: the objects behind the pointers `Server`,
`Server.TLS` and `Database` are present. -/
structure Config where
  Server : Server
  Database : Database
  PrivacyPolicy : String
  TermsOfService : String

end config

namespace server

open http

/-- The links `PrivacyPolicy`, `TermsOfService` and `CORS` of the package
middleware, which are not among the sources: `New` is read for any three of
them. -/
structure PolicyLinks where
  PrivacyPolicy : String → Handler → Handler
  TermsOfService : String → Handler → Handler
  CORS : Handler → Handler

/-- The list `middlewares` built in `New`. -/
def middlewares (m : PolicyLinks) (cfg : config.Config) : List (Handler → Handler) :=
  [ fun h => middleware.PanicRecovery h,
    fun h => middleware.UserAgent h,
    fun h => middleware.AcceptRequests h,
    fun h => m.PrivacyPolicy cfg.PrivacyPolicy h,
    fun h => m.TermsOfService cfg.TermsOfService h,
    m.CORS ]

/-- The handler `New` registers for a route, `middleware.Chain(h, middlewares...)`.
The function `middleware.Chain` is not among the sources, and what is among
them does not fix the order in which it applies the links of the list: `New`
is read for any such function. -/
def route (Chain : Handler → List (Handler → Handler) → Handler) (m : PolicyLinks)
    (cfg : config.Config) (h : Handler) : Handler :=
  Chain h (middlewares m cfg)

end server

/-! ## Libraries the handlers call -/

namespace strconv

/-- The number a string of decimal digits denotes. -/
def digitsValue (ds : List Char) : Nat :=
  ds.foldl (fun acc c => 10 * acc + (c.toNat - 48)) 0

/-- The digits after the sign, read as an `int` of 64 bits: an error (`none`)
when there is no digit, when a character is not a decimal digit, or when the
value does not fit. -/
def parseDigits (neg : Bool) (ds : List Char) : Option Int :=
  if ds = [] ∨ ds.any (fun c => !c.isDigit) = true then none
  else
    let v : Int := if neg then -(digitsValue ds : Int) else (digitsValue ds : Int)
    if -(2 : Int) ^ 63 ≤ v ∧ v < (2 : Int) ^ 63 then some v else none

/-- The function `strconv.Atoi`: an optional sign followed by decimal digits;
`none` stands for a returned error. -/
def Atoi (s : String) : Option Int :=
  match s.data with
  | '-' :: ds => parseDigits true ds
  | '+' :: ds => parseDigits false ds
  | ds => parseDigits false ds

/-- The function `strconv.Itoa`. -/
def Itoa (i : Int) : String :=
  toString i

/-- The function `strconv.ParseBool`; `none` stands for a returned error. -/
def ParseBool (str : String) : Option Bool :=
  if str ∈ ["1", "t", "T", "TRUE", "true", "True"] then some true
  else if str ∈ ["0", "f", "F", "FALSE", "false", "False"] then some false
  else none

end strconv

namespace xhttp

/-- The constants `xhttp.ContentType`, `xhttp.ApplicationJSON` and
`xhttp.TextPlain` of the package xstd-go. -/
def ContentType : String := "Content-Type"
def ApplicationJSON : String := "application/json"
def TextPlain : String := "text/plain"

end xhttp

namespace acopw

/-- The package acopw-go, the password generator the handlers call: its
default lengths and, for each kind of password, what `Generate` yields for the
given fields. `Diceware` can return an error. -/
structure Package where
  DefaultDicewareLength : Int
  DefaultRandomLength : Int
  DefaultPINLength : Int
  Diceware : (Separator : String) → (Capitalize : Bool) → (Length : Int) → Except String String
  Random : (Length : Int) → (UseLower UseUpper UseNumbers UseSymbols : Bool) → String
  PIN : (Length : Int) → String

end acopw

namespace build

/-- Name is the name of the application. -/
def Name : String := "Accio Password"

/-- Version is the version of the application. -/
def Version : String := "0.1.0"

/-- APIVersion is the version of the API. -/
def APIVersion : String := "v1"

end build

namespace model

/-- Password represents a randomly generated password. -/
structure Password where
  Diceware : String
  Random : String
  PIN : String
deriving DecidableEq, Repr

/-- NewDicewarePassword creates a new password using the Diceware method. -/
def NewDicewarePassword (diceware : String) : Password :=
  { Diceware := diceware, Random := "", PIN := "" }

/-- NewRandomPassword creates a new password using a cryptographically secure
random number generator. -/
def NewRandomPassword (random : String) : Password :=
  { Diceware := "", Random := random, PIN := "" }

/-- NewPIN creates a new password using a cryptographically secure random
number generator, but with only digits. -/
def NewPIN (pin : String) : Password :=
  { Diceware := "", Random := "", PIN := pin }

/-- Metrics represents the access metrics of a given resource; the fields are
`uint64` values. -/
structure Metrics where
  Random : Nat
  Diceware : Nat
  PIN : Nat
  Total : Nat
deriving DecidableEq, Repr

/-- NewMetrics creates a new Metrics instance with each counter set to their
given value. -/
def NewMetrics (random diceware pin total : Nat) : Metrics :=
  { Random := random, Diceware := diceware, PIN := pin, Total := total }

/-- Dependency represents a service dependency. -/
structure Dependency where
  Service : String
  Status : String
deriving DecidableEq, Repr

/-- Health represents the health status of the service and its dependencies. -/
structure Health where
  Name : String
  Version : String
  Dependencies : List Dependency
deriving DecidableEq, Repr

/-- NewHealth creates a new Health instance. -/
def NewHealth (name version : String) (dependencies : List Dependency) : Health :=
  { Dependencies := dependencies, Name := name, Version := version }

end model

/-! ## The handlers -/

namespace http

/-- The expression `r.URL.Query().Get(key)`: the first value of the query
parameter, the empty string when it is absent. -/
def Request.QueryGet (r : Request) (key : String) : String :=
  (r.Query.lookup key).getD ""

/-- The status line the client is sent: the code of the first `WriteHeader`,
or 200 when the body is written before any; `none` when nothing was written.
An error response of `cerrors.JSON` carries its own code. -/
def statusOf : List Written → Option Nat
  | [] => none
  | .header _ _ :: rest => statusOf rest
  | .status code :: _ => some code
  | .body _ :: _ => some 200
  | .error resp :: _ => some resp.Code

/-- The number of response emissions: calls that write a body, a `w.Write` or
an error response of `cerrors.JSON`. -/
def emissions : List Written → Nat
  | [] => 0
  | .header _ _ :: rest => emissions rest
  | .status _ :: rest => emissions rest
  | .body _ :: rest => emissions rest + 1
  | .error _ :: rest => emissions rest + 1

end http

namespace handler

open http

/-- A value handed to `json.Marshal` by a handler. -/
inductive Payload where
  | password (p : model.Password)
  | metrics (m : model.Metrics)
  | health (h : model.Health)
deriving DecidableEq, Repr

/-- What surrounds a handler during one request: the encoding `json.Marshal`
produces, and whether `w.Write` returns an error. -/
structure Runtime where
  Marshal : Payload → String
  writeErr : Bool

/-- A call of `Generate` on a generator of the package acopw, with the fields
it was built with. -/
inductive Generated where
  | Diceware (Separator : String) (Capitalize : Bool) (Length : Int)
  | Random (Length : Int) (UseLower UseUpper UseNumbers UseSymbols : Bool)
  | PIN (Length : Int)
deriving DecidableEq, Repr

/-- What one call of a generation handler did: how `ServeHTTP` ended, the calls
of `Generate` it made, and the counter types for which it started
`go h.db.Increment(...)`. -/
structure Served where
  out : Outcome
  generated : List Generated
  spawned : List String
deriving DecidableEq, Repr

/-- The call `h.logger.Error(msg, ...)` or `h.logger.Warn(msg, ...)`. -/
def logged (w : Exchange) (msg : String) : Exchange :=
  { w with logger := w.logger ++ [msg] }

/-- The call `w.Header().Set(key, value)`. -/
def setHeader (w : Exchange) (key value : String) : Exchange :=
  { w with response := w.response ++ [Written.header key value] }

/-- The call `w.Write(data)` and the error it returns. The call is recorded
whether or not it returns an error: the first `Write` commits the status line
before any byte of the body is sent. -/
def Write (rt : Runtime) (w : Exchange) (data : String) : Exchange × Option String :=
  ({ w with response := w.response ++ [Written.body data] },
    if rt.writeErr then some "write failed" else none)

/-- DefaultDicewareSeparator is the default separator for diceware passwords. -/
def DefaultDicewareSeparator : String := "-"

/-- MaxDicewareLength is the maximum length of a diceware password. -/
def MaxDicewareLength : Int := 64

/-- MaxPINLength is the maximum length of a PIN. -/
def MaxPINLength : Int := 64

/-- MaxRandomLength is the maximum length of a random password. -/
def MaxRandomLength : Int := 256

/-- The end shared by the three generation handlers, from the reading of the
`Content-Type` header on: the password is written as JSON or as plain text; a
failed write is logged and answered with an error response; after a write
that succeeded the increment of the counter is started. -/
def writePassword (rt : Runtime) (w : Exchange) (r : Request) (passwordModel : model.Password)
    (password : String) (counterType : String) (generated : List Generated) : Served :=
  let contentType := r.Header.Get xhttp.ContentType
  let wr :=
    if contentType = xhttp.ApplicationJSON then
      Write rt (setHeader w xhttp.ContentType xhttp.ApplicationJSON)
        (rt.Marshal (.password passwordModel))
    else
      Write rt (setHeader w xhttp.ContentType xhttp.TextPlain) password
  match wr.2 with
  | some _ =>
    { out := .returned (cerrors.JSON (logged wr.1 "error writing response")
        { Code := StatusInternalServerError,
          Message := "Cannot write response. Please try again later." }),
      generated := generated, spawned := [] }
  | none => { out := .returned wr.1, generated := generated, spawned := [counterType] }

/-- ServeHTTP handles HTTP requests for the /diceware endpoint. -/
def DicewareHandler.ServeHTTP (g : acopw.Package) (rt : Runtime) (w : Exchange)
    (r : Request) : Served :=
  let checked : Except Exchange Int :=
    if r.QueryGet "length" ≠ "" then
      match strconv.Atoi (r.QueryGet "length") with
      | none =>
        .error (cerrors.JSON (logged w "error parsing diceware length")
          { Code := StatusInternalServerError,
            Message := "Cannot parse the given diceware length. Please provide a valid integer." })
      | some parsed =>
        let length := if parsed < 1 then g.DefaultDicewareLength else parsed
        if length > MaxDicewareLength then
          .error (cerrors.JSON (logged w "password length is too long")
            { Code := StatusBadRequest,
              Message := "The given password length is too long. Please provide a length less than or equal to "
                ++ strconv.Itoa MaxDicewareLength ++ "." })
        else .ok length
    else .ok g.DefaultDicewareLength
  match checked with
  | .error x => { out := .returned x, generated := [], spawned := [] }
  | .ok length =>
    let capitalize : Bool := r.QueryGet "capitalize" = "true"
    let separator :=
      if r.QueryGet "separator" = "" then DefaultDicewareSeparator else r.QueryGet "separator"
    match g.Diceware separator capitalize length with
    | .error _ =>
      { out := .returned (cerrors.JSON (logged w "error generating diceware password")
          { Code := StatusInternalServerError,
            Message := "Cannot generate diceware password. Please try again later." }),
        generated := [.Diceware separator capitalize length], spawned := [] }
    | .ok password =>
      writePassword rt w r (model.NewDicewarePassword password) password
        database.CounterTypeDiceware [.Diceware separator capitalize length]

/-- ServeHTTP handles HTTP requests for the /pin endpoint. -/
def PINHandler.ServeHTTP (g : acopw.Package) (rt : Runtime) (w : Exchange)
    (r : Request) : Served :=
  let checked : Except Exchange Int :=
    if r.QueryGet "length" ≠ "" then
      match strconv.Atoi (r.QueryGet "length") with
      | none =>
        .error (cerrors.JSON (logged w "error parsing PIN length")
          { Code := StatusInternalServerError,
            Message := "Cannot parse the given PIN length. Please provide a valid integer." })
      | some parsed =>
        let length := if parsed < 1 then g.DefaultPINLength else parsed
        if length > MaxPINLength then
          .error (cerrors.JSON (logged w "PIN length is too long")
            { Code := StatusBadRequest,
              Message := "The given PIN length is too long. Please provide a length less than or equal to "
                ++ strconv.Itoa MaxPINLength ++ "." })
        else .ok length
    else .ok g.DefaultPINLength
  match checked with
  | .error x => { out := .returned x, generated := [], spawned := [] }
  | .ok length =>
    let password := g.PIN length
    writePassword rt w r (model.NewPIN password) password
      database.CounterTypePIN [.PIN length]

/-- One of the four blocks of the random handler that read a flag: an absent
parameter leaves the flag true; a value `strconv.ParseBool` rejects is logged
and answered with an error response of code 400. -/
def parseFlag (w : Exchange) (r : Request) (name : String) : Except Exchange Bool :=
  if r.QueryGet name ≠ "" then
    match strconv.ParseBool (r.QueryGet name) with
    | none =>
      .error (cerrors.JSON (logged w ("error parsing " ++ name ++ " flag"))
        { Code := StatusBadRequest,
          Message := "Cannot parse the given " ++ name
            ++ " flag. Please provide a valid boolean." })
    | some b => .ok b
  else .ok true

/-- ServeHTTP handles HTTP requests for the /random endpoint. -/
def RandomHandler.ServeHTTP (g : acopw.Package) (rt : Runtime) (w : Exchange)
    (r : Request) : Served :=
  let checked : Except Exchange Int :=
    if r.QueryGet "length" ≠ "" then
      match strconv.Atoi (r.QueryGet "length") with
      | none =>
        .error (cerrors.JSON (logged w "error parsing password length")
          { Code := StatusBadRequest,
            Message := "Cannot parse the given password length. Please provide a valid integer." })
      | some parsed =>
        let length := if parsed < 1 then g.DefaultRandomLength else parsed
        if length > MaxRandomLength then
          .error (cerrors.JSON (logged w "password length is too long")
            { Code := StatusBadRequest,
              Message := "The given password length is too long. Please provide a length less than or equal to "
                ++ strconv.Itoa MaxRandomLength ++ "." })
        else .ok length
    else .ok g.DefaultRandomLength
  match checked with
  | .error x => { out := .returned x, generated := [], spawned := [] }
  | .ok length =>
    match parseFlag w r "lowercase" with
    | .error x => { out := .returned x, generated := [], spawned := [] }
    | .ok useLowercase =>
      match parseFlag w r "uppercase" with
      | .error x => { out := .returned x, generated := [], spawned := [] }
      | .ok useUppercase =>
        match parseFlag w r "numbers" with
        | .error x => { out := .returned x, generated := [], spawned := [] }
        | .ok useNumbers =>
          match parseFlag w r "symbols" with
          | .error x => { out := .returned x, generated := [], spawned := [] }
          | .ok useSymbols =>
            let password := g.Random length useLowercase useUppercase useNumbers useSymbols
            writePassword rt w r (model.NewRandomPassword password) password
              database.CounterTypeRandom
              [.Random length useLowercase useUppercase useNumbers useSymbols]

end handler

namespace database

/-- Ping checks if the database is accessible by executing a simple query.
`probe` is what `d.db.QueryRow("SELECT 1").Scan(&result)` yields: an error, or
the value scanned into `result`. -/
def Ping (_d : DB) (probe : Except String Int) : Option String :=
  match probe with
  | .error e => some ("failed to ping the database: " ++ e)
  | .ok result =>
    if result ≠ 1 then some "failed to ping the database: %!w(<nil>)" else none

end database

namespace handler

open http

/-- Addition of two `uint64` values. -/
def addUint64 (a b : Nat) : Nat :=
  (a + b) % database.uint64Size

/-- ServeHTTP serves the /metrics endpoint. The store is returned as the
handler leaves it. -/
def MetricsHandler.ServeHTTP (d : database.DB) (rt : Runtime) (w : Exchange)
    (_r : Request) : database.DB × Outcome :=
  let countDiceware := database.Count d database.CounterTypeDiceware
  let countRandom := database.Count d database.CounterTypeRandom
  let countPIN := database.Count d database.CounterTypePIN
  let countTotal := addUint64 (addUint64 countDiceware countRandom) countPIN
  let counter := model.NewMetrics countRandom countDiceware countPIN countTotal
  let counterJSON := rt.Marshal (.metrics counter)
  let wr := Write rt (setHeader w xhttp.ContentType xhttp.ApplicationJSON) counterJSON
  match wr.2 with
  | some _ =>
    (d, .returned (cerrors.JSON
      (logged wr.1 "Failed to write access counter JSON to response")
      { Code := StatusInternalServerError,
        Message := "Failed to write access counter JSON to response." }))
  | none => (d, .returned wr.1)

/-- Online is the status of a service that is online. -/
def Online : String := "Online"

/-- Offline is the status of a service that is offline. -/
def Offline : String := "Offline"

/-- ServeHTTP serves the /health endpoint. `probe` is what the query of
`h.db.Ping()` yields. -/
def HealthHandler.ServeHTTP (d : database.DB) (probe : Except String Int) (rt : Runtime)
    (w : Exchange) (_r : Request) : Outcome :=
  let checked : String × Exchange :=
    match database.Ping d probe with
    | some _ => (Offline, logged w "Database is offline")
    | none => (Online, w)
  let dependencies : List model.Dependency :=
    [{ Service := "sqlite", Status := checked.1 }]
  let status := model.NewHealth build.Name build.Version dependencies
  let statusJSON := rt.Marshal (.health status)
  let wr := Write rt (setHeader checked.2 xhttp.ContentType xhttp.ApplicationJSON) statusJSON
  match wr.2 with
  | some _ =>
    .returned (cerrors.JSON (logged wr.1 "Failed to write status JSON to response")
      { Code := StatusInternalServerError,
        Message := "Failed to write status JSON to response." })
  | none => .returned wr.1

end handler

/-! ## Configuration and construction of the server -/

namespace config

/-- DefaultAddress is the default address of the application. -/
def DefaultAddress : String := ":1997"

/-- DefaultPID is the default path to the PID file. -/
def DefaultPID : String := "/var/run/acciopassword.pid"

/-- DefaultDSN is the default data source name for the SQLite database. -/
def DefaultDSN : String :=
  "file:/var/share/acciopassword/sqlite.db?cache=shared&mode=rwc&_pragma_cache_size=-20000&_journal_mode=WAL&_synchronous=NORMAL"

/-- DefaultMinTLSVersion is the default minimum TLS version supported by the
server. -/
def DefaultMinTLSVersion : String := "TLS13"

/-- The `Server` object as the decoder leaves it: the pointer `TLS` is nil
(`none`) when the file has no such object. -/
structure DecodedServer where
  TLS : Option TLS
  Address : String
  PID : String

/-- The `Config` object as the decoder leaves it: the pointers `Server` and
`Database` are nil (`none`) when the file has no such object. -/
structure Decoded where
  Server : Option DecodedServer
  Database : Option Database
  PrivacyPolicy : String
  TermsOfService : String

/-- How a call of `LoadConfig` ends: with a configuration, with an error, or
in a panic. -/
inductive LoadResult where
  | ok (cfg : Config)
  | err (e : String)
  | panic (v : String)

/-- The panic of a field access through a nil pointer. -/
def nilDereference : String :=
  "runtime error: invalid memory address or nil pointer dereference"

/-- LoadConfig opens a file and reads the configuration from it. `decoded` is
what opening the file and decoding its JSON yield: an error, or the pointer
`cfg`, nil (`none`) for the JSON value null. The fields the file leaves empty
are then given their defaults, in the order `Server.Address`, `Server.PID`,
`Database.DSN`, `Server.TLS.Version`; reading a field through a pointer that
is nil panics. -/
def LoadConfig (decoded : Except String (Option Decoded)) : LoadResult :=
  match decoded with
  | .error e => .err ("invalid configuration file: " ++ e)
  | .ok none => .panic nilDereference
  | .ok (some cfg) =>
    match cfg.Server with
    | none => .panic nilDereference
    | some server =>
      let address := if server.Address = "" then DefaultAddress else server.Address
      let pid := if server.PID = "" then DefaultPID else server.PID
      match cfg.Database with
      | none => .panic nilDereference
      | some database =>
        let dsn := if database.DSN = "" then DefaultDSN else database.DSN
        match server.TLS with
        | none => .panic nilDereference
        | some tls =>
          let version := if tls.Version = "" then DefaultMinTLSVersion else tls.Version
          .ok { Server := { TLS := { tls with Version := version }, Address := address,
                            PID := pid },
                Database := { DSN := dsn },
                PrivacyPolicy := cfg.PrivacyPolicy,
                TermsOfService := cfg.TermsOfService }

end config

namespace xtls

/-- The two profiles of the package xtls of xstd-go. -/
inductive Profile where
  | Modern
  | Intermediate
deriving DecidableEq, Repr

/-- The part of `tls.Config` that `New` sets: the profile the configuration
was made from and the certificates attached to it. -/
structure Config where
  profile : Profile
  Certificates : List String
deriving DecidableEq, Repr

/-- The function `xtls.ModernServerConfig`. -/
def ModernServerConfig : Config :=
  { profile := .Modern, Certificates := [] }

/-- The function `xtls.IntermediateServerConfig`. -/
def IntermediateServerConfig : Config :=
  { profile := .Intermediate, Certificates := [] }

end xtls

namespace server

/-- The fields of the `http.Server` that `New` builds, the timeouts in
seconds; its handler is the route table, each route being `route`. -/
structure Server where
  Addr : String
  TLSConfig : xtls.Config
  ReadTimeout : Nat
  WriteTimeout : Nat
  IdleTimeout : Nat
deriving DecidableEq, Repr

/-- How a call of `New` ends: with a server, with an error, or in a panic. -/
inductive NewResult where
  | ok (s : Server)
  | err (e : String)
  | panic (v : String)
deriving DecidableEq, Repr

/-- The function `New`, up to the TLS configuration of the server it returns.
`keyPair` is what `tls.LoadX509KeyPair` yields for the configured files. The
variable `tlsConfig` is a nil pointer until one of the two comparisons
assigns it; assigning to `Certificates` through a nil pointer panics. -/
def New (keyPair : Except String String) (cfg : config.Config) : NewResult :=
  match keyPair with
  | .error e => .err ("failed to load TLS certificate: " ++ e)
  | .ok cert =>
    let tlsConfig : Option xtls.Config := none
    let tlsConfig :=
      if cfg.Server.TLS.Version = "1.3" then some xtls.ModernServerConfig else tlsConfig
    let tlsConfig :=
      if cfg.Server.TLS.Version = "1.2" then some xtls.IntermediateServerConfig else tlsConfig
    match tlsConfig with
    | none => .panic "runtime error: invalid memory address or nil pointer dereference"
    | some c =>
      .ok { Addr := cfg.Server.Address,
            TLSConfig := { c with Certificates := [cert] },
            ReadTimeout := 5, WriteTimeout := 10, IdleTimeout := 60 }

end server

/-! ## The lifecycle of Start -/

namespace server

/-- Where the goroutine that runs `Start` stands: inside `ListenAndServeTLS`,
blocked on `<-shutdownCompleted`, or returned with the result of `Start`. -/
inductive MainAt where
  | serving
  | waiting
  | returned (err : Option String)
deriving DecidableEq, Repr

/-- Where the goroutine that `Start` launches stands: blocked on `<-sigint`,
past it and about to call `s.httpServer.Shutdown`, past that call, or past
`close(shutdownCompleted)`. -/
inductive WatcherAt where
  | waiting
  | signalled
  | drained
  | completed
deriving DecidableEq, Repr

/-- A server on which `Start` has been called. `closed` says that
`httpServer.Shutdown` has been called, after which `ListenAndServeTLS` returns
`http.ErrServerClosed`. -/
structure Running where
  main : MainAt
  watcher : WatcherAt
  closed : Bool
deriving DecidableEq, Repr

/-- The state right after `Start` has launched its goroutine and entered
`ListenAndServeTLS`. -/
def started : Running :=
  { main := .serving, watcher := .waiting, closed := false }

/-- What can happen to a running server: an interrupt or termination signal
is delivered; the launched goroutine calls `httpServer.Shutdown`; it closes
`shutdownCompleted`; a caller runs `Server.Shutdown(ctx)` to completion;
`ListenAndServeTLS` returns `ErrServerClosed`, or fails with another error;
the goroutine of `Start` receives from `shutdownCompleted`. -/
inductive Event where
  | signal
  | watcherShutdown
  | watcherClose
  | Shutdown
  | serveClosed
  | serveFailed (e : String)
  | received
deriving DecidableEq, Repr

/-- One step of `Start` and of the goroutine it launches; an event that cannot
happen in the state leaves it as it is. -/
def step (s : Running) : Event → Running
  | .signal =>
    if s.watcher = .waiting then { s with watcher := .signalled } else s
  | .watcherShutdown =>
    if s.watcher = .signalled then { s with watcher := .drained, closed := true } else s
  | .watcherClose =>
    if s.watcher = .drained then { s with watcher := .completed } else s
  | .Shutdown => { s with closed := true }
  | .serveClosed =>
    if s.main = .serving ∧ s.closed = true then { s with main := .waiting } else s
  | .serveFailed e =>
    if s.main = .serving then
      { s with main := .returned (some ("failed to start server: " ++ e)) }
    else s
  | .received =>
    if s.main = .waiting ∧ s.watcher = .completed then { s with main := .returned none } else s

/-- A sequence of events applied to a running server. -/
def Running.after (s : Running) (events : List Event) : Running :=
  events.foldl step s

end server

/-! ## Properties of the backing store -/

namespace database

theorem update_cons (ty : String) (c : Nat) (rest : Table) (k : String) :
    update ((ty, c) :: rest) k
      = (if ty = k then (ty, addOne c) else (ty, c)) :: update rest k := rfl

theorem committed_cons (ty : String) (c : Nat) (rest : Table) (k : String) :
    committed ((ty, c) :: rest) k
      = match committed rest k with
        | some v => some v
        | none => if ty = k then some c else none := rfl

theorem committed_update_self (t : Table) (k : String) :
    committed (update t k) k = (committed t k).map addOne := by
  induction t with
  | nil => rfl
  | cons r rest ih =>
    obtain ⟨ty, c⟩ := r
    rw [update_cons]
    by_cases hty : ty = k
    · rw [if_pos hty, committed_cons, committed_cons, ih]
      cases committed rest k <;> simp [hty]
    · rw [if_neg hty, committed_cons, committed_cons, ih]
      cases committed rest k <;> simp [hty]

theorem committed_update_of_ne (t : Table) {k kind : String} (h : k ≠ kind) :
    committed (update t kind) k = committed t k := by
  induction t with
  | nil => rfl
  | cons r rest ih =>
    obtain ⟨ty, c⟩ := r
    rw [update_cons]
    by_cases hty : ty = kind
    · have hk : ¬ ty = k := fun e => h (e ▸ hty)
      rw [if_pos hty, committed_cons, committed_cons, ih]
      cases committed rest k <;> simp [hk]
    · rw [if_neg hty, committed_cons, committed_cons, ih]

theorem Increment_err_eq_none_iff (d : DB) (f : Faults) (k : String) :
    (Increment d f k).err = none
      ↔ f.beginErr = false ∧ f.prepareErr = false ∧ f.execErr = false := by
  obtain ⟨b, p, e, c, r⟩ := f
  cases b <;> cases p <;> cases e <;> simp [Increment]

/-- An `Increment` that returns an error leaves the table and the mirror as
they were. -/
theorem Increment_of_err (d : DB) (f : Faults) (k : String)
    (h : (Increment d f k).err ≠ none) :
    (Increment d f k).d.db = d.db ∧ (Increment d f k).d.count = d.count := by
  obtain ⟨b, p, e, c, r⟩ := f
  cases b <;> cases p <;> cases e <;> cases c <;> cases r <;>
    simp [Increment, finalizer, Begin, Tx.Rollback, Tx.Commit] at h ⊢

/-- An `Increment` that returns nil has raised the mirror by one. -/
theorem Increment_count_of_nil (d : DB) (f : Faults) (k : String)
    (h : (Increment d f k).err = none) :
    (Increment d f k).d.count = d.count.set k ((d.count k + 1) % uint64Size) := by
  obtain ⟨b, p, e, c, r⟩ := f
  cases b <;> cases p <;> cases e <;> simp [Increment] at h ⊢

/-- An `Increment` that returns nil and whose `Commit` succeeded has run the
`UPDATE` on the committed table. -/
theorem Increment_db_of_commit (d : DB) (f : Faults) (k : String)
    (h : (Increment d f k).err = none) (hc : f.commitErr = false) :
    (Increment d f k).d.db = update d.db k := by
  obtain ⟨b, p, e, c, r⟩ := f
  cases b <;> cases p <;> cases e <;> cases c <;>
    simp [Increment, finalizer, Begin, Tx.Exec, Tx.Commit] at h hc ⊢

/-- An `Increment` that returns nil and whose `Commit` failed has left the
committed table as it was. -/
theorem Increment_db_of_commitLost (d : DB) (f : Faults) (k : String)
    (h : (Increment d f k).err = none) (hc : f.commitErr = true) :
    (Increment d f k).d.db = d.db := by
  obtain ⟨b, p, e, c, r⟩ := f
  cases b <;> cases p <;> cases e <;> cases c <;>
    simp [Increment, finalizer, Begin, Tx.Exec, Tx.Commit] at h hc ⊢

/-- What a successful scan leaves in the map: the count of the last row of
each type, the previous entry for a type without a row; and every count of
the table fits a `uint64`. -/
theorem scanRows_ok (t : Table) :
    ∀ (counters result : Counters), scanRows t counters = .ok result →
      (∀ k, result k = (committed t k).getD (counters k))
        ∧ ∀ k v, committed t k = some v → v < integerLimit := by
  induction t with
  | nil =>
    intro counters result h
    simp only [scanRows, Except.ok.injEq] at h
    subst h
    exact ⟨fun k => rfl, fun k v hv => by simp [committed] at hv⟩
  | cons r rest ih =>
    obtain ⟨ty, c⟩ := r
    intro counters result h
    by_cases hc : c < integerLimit
    · simp only [scanRows, if_pos hc] at h
      obtain ⟨h1, h2⟩ := ih _ _ h
      refine ⟨fun k => ?_, fun k v hv => ?_⟩
      · rw [h1 k, committed_cons]
        cases hr : committed rest k with
        | some v => rfl
        | none =>
          by_cases hk : ty = k
          · simp [Counters.set, hk]
          · have hk2 : ¬ k = ty := fun e => hk e.symm
            simp [Counters.set, hk, hk2]
      · rw [committed_cons] at hv
        cases hr : committed rest k with
        | some w =>
          rw [hr] at hv
          simp only [Option.some.injEq] at hv
          exact hv ▸ h2 k w hr
        | none =>
          rw [hr] at hv
          by_cases hk : ty = k
          · simp only [if_pos hk, Option.some.injEq] at hv
            exact hv ▸ hc
          · simp [if_neg hk] at hv
    · simp [scanRows, if_neg hc] at h

/-- A store made by `Open` mirrors the table it read, whose counts are all
INTEGERs. -/
theorem Open_ok (logger : Option (List String)) (dsn : String) (f : OpenFaults)
    (target : Table) (d : DB) (h : Open logger dsn f target = .ok d) :
    d.db = schema target ∧ (∀ k, d.count k = persisted d.db k)
      ∧ ∀ k v, committed d.db k = some v → v < integerLimit := by
  unfold Open at h
  cases logger with
  | none => simp at h
  | some lg =>
    simp only at h
    split at h
    · simp at h
    split at h
    · simp at h
    split at h
    · simp at h
    split at h
    · simp at h
    split at h
    · simp at h
    · rename_i counters hscan
      split at h
      · simp at h
      · simp only [Except.ok.injEq] at h
        subst h
        obtain ⟨h1, h2⟩ := scanRows_ok _ _ _ hscan
        exact ⟨rfl, fun k => by simp [h1 k, persisted], h2⟩

theorem committed_append (t s : Table) (k : String) :
    committed (t ++ s) k
      = match committed s k with
        | some v => some v
        | none => committed t k := by
  induction t with
  | nil => cases h : committed s k <;> simp [h, committed]
  | cons r rest ih =>
    obtain ⟨ty, c⟩ := r
    rw [List.cons_append, committed_cons, committed_cons, ih]
    cases committed s k <;> rfl

theorem committed_map_zero_eq (l : List String) (k : String) :
    committed (l.map (fun k => (k, 0))) k = if k ∈ l then some 0 else none := by
  induction l with
  | nil => rfl
  | cons a rest ih =>
    rw [List.map_cons, committed_cons, ih]
    by_cases hk : k ∈ rest
    · simp [hk]
    · by_cases ha : a = k
      · simp [hk, ha]
      · have ha2 : ¬ k = a := fun e => ha e.symm
        simp [hk, ha, ha2]

theorem committed_map_zero (l : List String) (k : String) (h : k ∈ l) :
    committed (l.map (fun k => (k, 0))) k = some 0 := by
  rw [committed_map_zero_eq, if_pos h]

/-- The schema leaves a row for each of the three counter types. -/
theorem schema_known (t : Table) (k : String)
    (hk : k ∈ [CounterTypeDiceware, CounterTypeRandom, CounterTypePIN]) :
    (committed (schema t) k).isSome = true := by
  unfold schema
  rw [committed_append]
  by_cases hrow : (committed t k).isNone = true
  · have hmem : k ∈ [CounterTypeDiceware, CounterTypeRandom, CounterTypePIN].filter
        (fun k => (committed t k).isNone) := List.mem_filter.mpr ⟨hk, hrow⟩
    rw [committed_map_zero _ k hmem]
    rfl
  · cases hs : committed (([CounterTypeDiceware, CounterTypeRandom, CounterTypePIN].filter
        (fun k => (committed t k).isNone)).map (fun k => (k, 0))) k with
    | some v => rfl
    | none =>
      cases ht : committed t k with
      | some w => rfl
      | none => simp [ht] at hrow

/-- The table after an `Increment` is the table before it, or that table
after the `UPDATE`. -/
theorem Increment_db_cases (d : DB) (f : Faults) (k : String) :
    (Increment d f k).d.db = d.db ∨ (Increment d f k).d.db = update d.db k := by
  by_cases h : (Increment d f k).err = none
  · cases hc : f.commitErr with
    | false => exact Or.inr (Increment_db_of_commit d f k h hc)
    | true => exact Or.inl (Increment_db_of_commitLost d f k h hc)
  · exact Or.inl (Increment_of_err d f k h).1

/-- The `UPDATE` neither adds nor removes a row. -/
theorem committed_update_isSome (t : Table) (kind k : String) :
    (committed (update t kind) k).isSome = (committed t k).isSome := by
  by_cases h : k = kind
  · subst h
    rw [committed_update_self]
    cases committed t k <;> rfl
  · rw [committed_update_of_ne t h]

/-- No sequence of `Increment` calls adds or removes a row. -/
theorem runIncrements_isSome (calls : List (String × Faults)) :
    ∀ (d : DB) (k : String),
      (committed (runIncrements d calls).db k).isSome = (committed d.db k).isSome := by
  induction calls with
  | nil => intro d k; rfl
  | cons c rest ih =>
    obtain ⟨kind, f⟩ := c
    intro d k
    show (committed (runIncrements (Increment d f kind).d rest).db k).isSome = _
    rw [ih]
    rcases Increment_db_cases d f kind with h | h
    · rw [h]
    · rw [h, committed_update_isSome]

/-- One `Increment` keeps the mirror in agreement with the table, unless it
returns nil on a failed `Commit`. -/
theorem Increment_agrees (d : DB) (f : Faults) (kind : String)
    (hf : commitLost f = false) (h : Agrees d) : Agrees (Increment d f kind).d := by
  intro k v hv hlt
  by_cases herr : (Increment d f kind).err = none
  · have hc : f.commitErr = false := by
      obtain ⟨h1, h2, h3⟩ := (Increment_err_eq_none_iff d f kind).mp herr
      simpa [commitLost, h1, h2, h3] using hf
    rw [Increment_db_of_commit d f kind herr hc] at hv
    rw [Increment_count_of_nil d f kind herr]
    by_cases hk : k = kind
    · subst hk
      rw [committed_update_self] at hv
      cases h0 : committed d.db k with
      | none => simp [h0] at hv
      | some w =>
        rw [h0] at hv
        simp only [Option.map_some', Option.some.injEq] at hv
        subst hv
        simp only [Counters.set, if_true]
        have hw : w < integerLimit := by
          by_contra hge
          simp only [addOne, if_neg hge] at hlt
          exact hge hlt
        have hfit : w + 1 < uint64Size := by
          have h1 : w < 2 ^ 63 := hw
          have h2 : uint64Size = 2 ^ 64 := rfl
          omega
        rw [h k w h0 hw, Nat.mod_eq_of_lt hfit]
        simp only [addOne, if_pos hw]
    · rw [committed_update_of_ne _ hk] at hv
      simp only [Counters.set, if_neg hk]
      exact h k v hv hlt
  · obtain ⟨h1, h2⟩ := Increment_of_err d f kind herr
    rw [h1] at hv
    rw [h2]
    exact h k v hv hlt

theorem runIncrements_agrees (calls : List (String × Faults)) :
    ∀ (d : DB), (∀ c ∈ calls, commitLost c.2 = false) → Agrees d →
      Agrees (runIncrements d calls) := by
  induction calls with
  | nil => intro d _ h; exact h
  | cons c rest ih =>
    obtain ⟨kind, f⟩ := c
    intro d hc h
    exact ih _ (fun c hmem => hc c (List.mem_cons_of_mem _ hmem))
      (Increment_agrees d f kind (hc (kind, f) (List.mem_cons_self _ _)) h)

theorem Open_agrees (logger : Option (List String)) (dsn : String) (f : OpenFaults)
    (target : Table) (d : DB) (h : Open logger dsn f target = .ok d) : Agrees d := by
  obtain ⟨_, h2, _⟩ := Open_ok logger dsn f target d h
  intro k v hv _
  rw [h2 k, persisted, hv, Option.getD_some]

/-- The mirror after a sequence of calls for one type, each returning nil. -/
theorem Count_runIncrements (kind : String) (calls : List (String × Faults)) :
    ∀ (d : DB), (∀ c ∈ calls, c.1 = kind) → allNil d calls = true →
      Count d kind < uint64Size →
      Count (runIncrements d calls) kind = (Count d kind + calls.length) % uint64Size := by
  induction calls with
  | nil =>
    intro d _ _ hwf
    exact (Nat.mod_eq_of_lt hwf).symm
  | cons c rest ih =>
    obtain ⟨k, f⟩ := c
    intro d hk hnil hwf
    have hkk : k = kind := hk (k, f) (List.mem_cons_self _ _)
    subst hkk
    simp only [allNil, Bool.and_eq_true, Option.isNone_iff_eq_none] at hnil
    have hstep : Count (Increment d f k).d k = (Count d k + 1) % uint64Size := by
      simp [Count, Increment_count_of_nil d f k hnil.1, Counters.set]
    show Count (runIncrements (Increment d f k).d rest) k = _
    rw [ih _ (fun c hmem => hk c (List.mem_cons_of_mem _ hmem)) hnil.2
      (hstep ▸ Nat.mod_lt _ (by decide)), hstep, List.length_cons,
      Nat.add_mod ((Count d k + 1) % uint64Size), Nat.mod_mod, ← Nat.add_mod]
    congr 1
    omega

theorem allNil_of_faults (calls : List (String × Faults))
    (h : ∀ c ∈ calls, c.2.beginErr = false ∧ c.2.prepareErr = false ∧ c.2.execErr = false) :
    ∀ (d : DB), allNil d calls = true := by
  induction calls with
  | nil => intro d; rfl
  | cons c rest ih =>
    obtain ⟨k, f⟩ := c
    intro d
    simp only [allNil, Bool.and_eq_true, Option.isNone_iff_eq_none]
    exact ⟨(Increment_err_eq_none_iff d f k).mpr (h (k, f) (List.mem_cons_self _ _)),
      ih (fun c hmem => h c (List.mem_cons_of_mem _ hmem)) _⟩

/-! ## The claims on the access counter -/

/-- C1: Increment is not atomic when `Commit` fails. For every store state
and every kind, an `Increment` during which `Begin`, `Prepare` and `Exec`
succeed and `Commit` returns an error returns nil and raises the mirror by one,
while the committed table stays as it was; the failure is only logged. -/
theorem Increment_nil_on_failed_commit (d : DB) (f : Faults) (kind : String)
    (h : commitLost f = true) :
    (Increment d f kind).err = none
      ∧ Count (Increment d f kind).d kind = (Count d kind + 1) % uint64Size
      ∧ (Increment d f kind).d.db = d.db
      ∧ (Increment d f kind).d.logger = d.logger ++ ["failed to commit transaction"]
      ∧ (Increment d f kind).ops = [TxOp.Commit] := by
  obtain ⟨b, p, e, c, r⟩ := f
  cases b <;> cases p <;> cases e <;> cases c <;> simp [commitLost] at h
  simp [Increment, finalizer, Begin, Tx.Exec, Tx.Commit, Count, Counters.set]

/-- C1, at a concrete input: on a store opened on an empty target,
`Increment(Random)` with a failing `Commit` returns nil and raises the mirror
from 0 to 1, while the persisted count stays 0. -/
theorem Increment_nil_on_failed_commit_witness :
    ∃ d, Open (some []) "file:counter.db" {} [] = .ok d
      ∧ (Increment d { commitErr := true } CounterTypeRandom).err = none
      ∧ Count d CounterTypeRandom = 0
      ∧ Count (Increment d { commitErr := true } CounterTypeRandom).d CounterTypeRandom = 1
      ∧ persisted d.db CounterTypeRandom = 0
      ∧ persisted (Increment d { commitErr := true } CounterTypeRandom).d.db
          CounterTypeRandom = 0 :=
  ⟨_, rfl, (Increment_nil_on_failed_commit _ { commitErr := true } CounterTypeRandom rfl).1,
    by decide, by decide, by decide, by decide⟩

/-- C2: if `Increment(kind)` returns nil then `Count(kind)` afterwards is
`Count(kind)` before plus one, as a `uint64`; and N successive calls of
`Increment(kind)` that all return nil, from a count of c, leave
`Count(kind) = c + N` as a `uint64`, which is `c + N` itself as long as that
fits 64 bits. -/
theorem Count_after_Increment (d : DB) (kind : String) (calls : List (String × Faults))
    (hkind : ∀ c ∈ calls, c.1 = kind) (hnil : allNil d calls = true)
    (hwf : Count d kind < uint64Size) :
    (∀ f, (Increment d f kind).err = none →
        Count (Increment d f kind).d kind = (Count d kind + 1) % uint64Size)
      ∧ Count (runIncrements d calls) kind = (Count d kind + calls.length) % uint64Size
      ∧ (Count d kind + calls.length < uint64Size →
          Count (runIncrements d calls) kind = Count d kind + calls.length) := by
  have hrun := Count_runIncrements kind calls d hkind hnil hwf
  refine ⟨fun f hf => ?_, hrun, fun hfit => ?_⟩
  · simp [Count, Increment_count_of_nil d f kind hf, Counters.set]
  · rw [hrun, Nat.mod_eq_of_lt hfit]

/-- C2, at a concrete input: 1000 increments of Random, each returning nil,
from a count of 0 give a count of 1000. -/
theorem Count_after_Increment_witness :
    Count (runIncrements { db := [(CounterTypeRandom, 0)], logger := [], count := fun _ => 0 }
      (List.replicate 1000 (CounterTypeRandom, { }))) CounterTypeRandom = 1000 := by
  have h := (Count_after_Increment
    { db := [(CounterTypeRandom, 0)], logger := [], count := fun _ => 0 }
    CounterTypeRandom (List.replicate 1000 (CounterTypeRandom, { }))
    (fun c hc => by rw [List.eq_of_mem_replicate hc])
    (allNil_of_faults _
      (fun c hc => by rw [List.eq_of_mem_replicate hc]; exact ⟨rfl, rfl, rfl⟩) _)
    (by decide)).2.2
  rw [List.length_replicate] at h
  exact h (by decide)

/-- C3, as the code has it: in every state reached from a successful `Open`
by `Increment` calls none of which returned nil on a failed `Commit`, the
mirror of a type whose row in the counter table is still an INTEGER (a count
below 2^63) equals the committed count of that row; and Diceware, Random and
PIN have a row. -/
theorem Count_eq_committed (logger : Option (List String)) (dsn : String) (f : OpenFaults)
    (target : Table) (d : DB) (calls : List (String × Faults)) (kind : String) (v : Nat)
    (hopen : Open logger dsn f target = .ok d)
    (hcalls : ∀ c ∈ calls, commitLost c.2 = false)
    (hrow : committed (runIncrements d calls).db kind = some v)
    (hint : v < 2 ^ 63) :
    Count (runIncrements d calls) kind = v
      ∧ ∀ k ∈ [CounterTypeDiceware, CounterTypeRandom, CounterTypePIN],
          (committed (runIncrements d calls).db k).isSome = true := by
  refine ⟨runIncrements_agrees calls d hcalls
    (Open_agrees logger dsn f target d hopen) kind v hrow hint, fun k hk => ?_⟩
  rw [runIncrements_isSome, (Open_ok logger dsn f target d hopen).1]
  exact schema_known target k hk

/-- C3, at a concrete input: a store opened on a table holding PIN = 3, then
two increments of PIN around a failed increment of Random, mirrors PIN = 5. -/
theorem Count_eq_committed_witness :
    ∃ d, Open (some []) "file:counter.db" {} [(CounterTypePIN, 3)] = .ok d
      ∧ Count (runIncrements d [(CounterTypePIN, { }),
          (CounterTypeRandom, { execErr := true }), (CounterTypePIN, { })]) CounterTypePIN
        = 5 :=
  ⟨_, rfl, (Count_eq_committed (some []) "file:counter.db" {} [(CounterTypePIN, 3)] _
    [(CounterTypePIN, { }), (CounterTypeRandom, { execErr := true }), (CounterTypePIN, { })]
    CounterTypePIN 5 rfl (by decide) (by decide) (by decide)).1⟩

/-- C3 fails for a string without a row, and for a row that leaves the
integers. On a store opened on an empty target, `Increment("Other")` returns
nil and raises the mirror of "Other" to 1, while the counter table has no row
for it (a count of 0). On a store opened on a table holding Random =
2^63 - 1, two increments of Random, both committed, leave the mirror at
2^63 + 1, while the row has become the REAL 2^63 and stays there. -/
theorem Count_ne_committed :
    (∃ d, Open (some []) "file:counter.db" {} [] = .ok d
      ∧ (Increment d { } "Other").err = none
      ∧ committed (runIncrements d [("Other", { })]).db "Other" = none
      ∧ persisted (runIncrements d [("Other", { })]).db "Other" = 0
      ∧ Count (runIncrements d [("Other", { })]) "Other" = 1)
    ∧ ∃ d, Open (some []) "file:counter.db" {} [(CounterTypeRandom, 2 ^ 63 - 1)] = .ok d
      ∧ allNil d [(CounterTypeRandom, { }), (CounterTypeRandom, { })] = true
      ∧ committed (runIncrements d [(CounterTypeRandom, { }),
          (CounterTypeRandom, { })]).db CounterTypeRandom = some (2 ^ 63)
      ∧ Count (runIncrements d [(CounterTypeRandom, { }),
          (CounterTypeRandom, { })]) CounterTypeRandom = 2 ^ 63 + 1 :=
  ⟨⟨_, rfl, by decide, by decide, by decide, by decide⟩,
    ⟨_, rfl, by decide, by decide, by decide⟩⟩

/-- C4: a count is lost across a re-open when `Commit` fails. On a store opened
on an empty target, `Increment(PIN)` with `Commit` failing returns nil; after
`Close` and a second `Open` on the same target, `Count(PIN)` is 0, not 1. -/
theorem reopen_after_failed_commit :
    ∃ d d2, Open (some []) "file:counter.db" {} [] = .ok d
      ∧ Count d CounterTypePIN = 0
      ∧ (Increment d { commitErr := true } CounterTypePIN).err = none
      ∧ Open (some []) "file:counter.db" {}
          (Close (Increment d { commitErr := true } CounterTypePIN).d false).1 = .ok d2
      ∧ Count d2 CounterTypePIN = 0 :=
  ⟨_, _, rfl, by decide, by decide, rfl, by decide⟩

end database

/-! ## The claims on the middleware pipeline -/

namespace middleware

open http

theorem AcceptRequests_reject (next : Handler) (w : Exchange) (r : Request)
    (h : r.Method ≠ MethodGet ∧ r.Method ≠ MethodHead ∧ r.Method ≠ MethodOptions) :
    AcceptRequests next w r
      = .returned (cerrors.JSON w
          { Code := StatusMethodNotAllowed,
            Message := "Method " ++ r.Method ++ " not allowed. Must be GET, HEAD, or OPTIONS." }) := by
  unfold AcceptRequests
  rw [if_pos h]

theorem AcceptRequests_forward (next : Handler) (w : Exchange) (r : Request)
    (h : r.Method = MethodGet ∨ r.Method = MethodHead ∨ r.Method = MethodOptions) :
    AcceptRequests next w r = next w r := by
  unfold AcceptRequests
  rw [if_neg]
  rintro ⟨h1, h2, h3⟩
  rcases h with h | h | h
  · exact h1 h
  · exact h2 h
  · exact h3 h

theorem UserAgent_reject (next : Handler) (w : Exchange) (r : Request)
    (h : r.UserAgent = "") :
    UserAgent next w r
      = .returned (cerrors.JSON w
          { Code := StatusBadRequest,
            Message := "User agent is missing. Please provide a valid user agent." }) := by
  unfold UserAgent
  rw [if_pos h]

theorem UserAgent_forward (next : Handler) (w : Exchange) (r : Request)
    (h : r.UserAgent ≠ "") :
    UserAgent next w r = next w r := by
  unfold UserAgent
  rw [if_neg h]

theorem PanicRecovery_returns (next : Handler) (w : Exchange) (r : Request) :
    ∃ x, PanicRecovery next w r = .returned x := by
  unfold PanicRecovery
  cases next w r with
  | returned x => exact ⟨x, rfl⟩
  | panicked v x => exact ⟨_, rfl⟩

/-- C8: of `AcceptRequests`. A request whose method is not GET, HEAD or OPTIONS
gets one error response of code 405 whose message names the method, and the
outcome is the same whatever `next` is (it is not invoked); a request whose
method is GET, HEAD or OPTIONS gets exactly what `next` does with the same
response writer and request. -/
theorem AcceptRequests_rejects_exactly (next : Handler) (w : Exchange) (r : Request) :
    ((r.Method ≠ "GET" ∧ r.Method ≠ "HEAD" ∧ r.Method ≠ "OPTIONS") →
        AcceptRequests next w r
          = .returned
              { response := w.response ++ [Written.error
                  { Code := 405,
                    Message := "Method " ++ r.Method
                      ++ " not allowed. Must be GET, HEAD, or OPTIONS." }],
                logger := w.logger }
          ∧ ∀ other : Handler, AcceptRequests other w r = AcceptRequests next w r)
      ∧ ((r.Method = "GET" ∨ r.Method = "HEAD" ∨ r.Method = "OPTIONS") →
          AcceptRequests next w r = next w r) := by
  refine ⟨fun h => ⟨?_, fun other => ?_⟩, fun h => AcceptRequests_forward next w r h⟩
  · rw [AcceptRequests_reject next w r h]; rfl
  · rw [AcceptRequests_reject next w r h, AcceptRequests_reject other w r h]

/-- C8, at concrete inputs: a DELETE request is answered 405 without `next`,
and a GET request reaches a `next` that writes "pong" once. -/
theorem AcceptRequests_rejects_exactly_witness :
    AcceptRequests (fun w _ => .returned { w with response := w.response ++ [.body "pong"] })
        { response := [], logger := [] } { Method := "DELETE", Header := [], Query := [] }
      = .returned
          { response := [Written.error
              { Code := 405,
                Message := "Method DELETE not allowed. Must be GET, HEAD, or OPTIONS." }],
            logger := [] }
    ∧ AcceptRequests (fun w _ => .returned { w with response := w.response ++ [.body "pong"] })
        { response := [], logger := [] } { Method := "GET", Header := [], Query := [] }
      = .returned { response := [Written.body "pong"], logger := [] } :=
  ⟨((AcceptRequests_rejects_exactly _ _ _).1 (by decide)).1,
    (AcceptRequests_rejects_exactly _ _ _).2 (Or.inl rfl)⟩

/-- C9: of `UserAgent`. A request whose user agent is the empty string gets one
error response of code 400 with the fixed message, and the outcome is the same
whatever `next` is (it is not invoked); any other request gets exactly what
`next` does with the same response writer and request. -/
theorem UserAgent_rejects_exactly (next : Handler) (w : Exchange) (r : Request) :
    (r.UserAgent = "" →
        UserAgent next w r
          = .returned
              { response := w.response ++ [Written.error
                  { Code := 400,
                    Message := "User agent is missing. Please provide a valid user agent." }],
                logger := w.logger }
          ∧ ∀ other : Handler, UserAgent other w r = UserAgent next w r)
      ∧ (r.UserAgent ≠ "" → UserAgent next w r = next w r) := by
  refine ⟨fun h => ⟨?_, fun other => ?_⟩, fun h => UserAgent_forward next w r h⟩
  · rw [UserAgent_reject next w r h]; rfl
  · rw [UserAgent_reject next w r h, UserAgent_reject other w r h]

/-- C9, at concrete inputs: a request without a `User-Agent` header is answered
400 without `next`, and one with a user agent reaches a `next` that writes
"pong" once. -/
theorem UserAgent_rejects_exactly_witness :
    UserAgent (fun w _ => .returned { w with response := w.response ++ [.body "pong"] })
        { response := [], logger := [] } { Method := "GET", Header := [], Query := [] }
      = .returned
          { response := [Written.error
              { Code := 400,
                Message := "User agent is missing. Please provide a valid user agent." }],
            logger := [] }
    ∧ UserAgent (fun w _ => .returned { w with response := w.response ++ [.body "pong"] })
        { response := [], logger := [] }
        { Method := "GET", Header := [("User-Agent", "curl/8.0")], Query := [] }
      = .returned { response := [Written.body "pong"], logger := [] } :=
  ⟨((UserAgent_rejects_exactly _ _ _).1 (by decide)).1,
    (UserAgent_rejects_exactly _ _ _).2 (by decide)⟩

/-- C10: of `PanicRecovery`. When `next` panics with a value `v`, the wrapped
handler returns normally, having added to what `next` wrote one error response
of code 500 with the fixed message, and having logged `v`; the response is the
same for any two panic values. When `next` returns, the wrapped handler
returns what `next` did and nothing of its own. In no case does the wrapped
handler panic. -/
theorem PanicRecovery_contains (next : Handler) (w : Exchange) (r : Request) :
    (∀ v x, next w r = .panicked v x →
        PanicRecovery next w r
          = .returned
              { response := x.response ++ [Written.error
                  { Code := 500, Message := "Internal server error. Please try again later." }],
                logger := x.logger ++ ["panic recovered: " ++ v] })
      ∧ (∀ (other : Handler) v1 v2 x, next w r = .panicked v1 x → other w r = .panicked v2 x →
          (PanicRecovery next w r).exchange.response
            = (PanicRecovery other w r).exchange.response)
      ∧ (∀ x, next w r = .returned x → PanicRecovery next w r = .returned x)
      ∧ ∃ x, PanicRecovery next w r = .returned x := by
  refine ⟨fun v x h => ?_, fun other v1 v2 x h1 h2 => ?_, fun x h => ?_,
    PanicRecovery_returns next w r⟩
  · simp [PanicRecovery, h, cerrors.JSON, StatusInternalServerError]
  · simp [PanicRecovery, h1, h2, cerrors.JSON, Outcome.exchange]
  · simp [PanicRecovery, h]

/-- C10, at concrete inputs: a handler that writes part of a body and panics
with an internal error text yields the 500 response without that text, and the
same response as one that panics with another value. -/
theorem PanicRecovery_contains_witness :
    PanicRecovery
        (fun w _ => .panicked "sql: database is closed"
          { w with response := w.response ++ [.body "part"] })
        { response := [], logger := [] } { Method := "GET", Header := [], Query := [] }
      = .returned
          { response := [Written.body "part", Written.error
              { Code := 500, Message := "Internal server error. Please try again later." }],
            logger := ["panic recovered: sql: database is closed"] }
    ∧ (PanicRecovery
        (fun w _ => .panicked "sql: database is closed"
          { w with response := w.response ++ [.body "part"] })
        { response := [], logger := [] }
        { Method := "GET", Header := [], Query := [] }).exchange.response
      = (PanicRecovery
        (fun w _ => .panicked "index out of range"
          { w with response := w.response ++ [.body "part"] })
        { response := [], logger := [] }
        { Method := "GET", Header := [], Query := [] }).exchange.response :=
  ⟨(PanicRecovery_contains _ _ _).1 "sql: database is closed"
      { response := [.body "part"], logger := [] } rfl,
    (PanicRecovery_contains _ _ _).2.1 _ "sql: database is closed" "index out of range"
      { response := [.body "part"], logger := [] } rfl rfl⟩

end middleware

namespace server

open http middleware

/-- With a `Chain` that lets each link of the list wrap the links after it,
the route of `New` has `PanicRecovery` outermost and the user-agent check
before the method allow-list. -/
theorem route_first_link_outermost (m : PolicyLinks) (cfg : config.Config) (h : Handler) :
    route (fun h ms => ms.foldr (fun link rest => link rest) h) m cfg h
      = PanicRecovery (UserAgent (AcceptRequests
          (m.PrivacyPolicy cfg.PrivacyPolicy
            (m.TermsOfService cfg.TermsOfService (m.CORS h))))) := rfl

/-- With a `Chain` that goes through the list and wraps what it has so far in
each link, the route of `New` has CORS outermost, the method allow-list before
the user-agent check, and `PanicRecovery` around the handler only. -/
theorem route_last_link_outermost (m : PolicyLinks) (cfg : config.Config) (h : Handler) :
    route (fun h ms => ms.foldl (fun wrapped link => link wrapped) h) m cfg h
      = m.CORS (m.TermsOfService cfg.TermsOfService
          (m.PrivacyPolicy cfg.PrivacyPolicy
            (AcceptRequests (UserAgent (PanicRecovery h))))) := rfl

end server

/-! ## The transaction boundary of Increment -/

namespace database

/-- C18: the deferred function of `Increment` calls `Commit` after `Rollback`.
For every `Increment` whose transaction was begun and whose `Prepare` or `Exec`
failed, the calls made on the transaction are `Rollback` and then `Commit`;
that `Commit` fails on the finished transaction and is logged as
"failed to commit transaction". The error returned is the one of the failed
step, and the table and the mirror are unchanged. -/
theorem Increment_commits_after_rollback (d : DB) (f : Faults) (kind : String)
    (hbegin : f.beginErr = false) (hfail : f.prepareErr = true ∨ f.execErr = true) :
    (Increment d f kind).ops = [TxOp.Rollback, TxOp.Commit]
      ∧ (Increment d f kind).d.logger
          = (if f.rollbackErr then d.logger ++ ["failed to rollback transaction"] else d.logger)
              ++ ["failed to commit transaction"]
      ∧ (Increment d f kind).err
          = some (if f.prepareErr then "failed to prepare statement"
              else "failed to increment access counter")
      ∧ (Increment d f kind).d.db = d.db ∧ (Increment d f kind).d.count = d.count := by
  obtain ⟨b, p, e, c, r⟩ := f
  simp only at hbegin hfail
  subst hbegin
  cases p <;> cases e <;> cases c <;> cases r <;>
    simp [Increment, finalizer, Begin, Tx.Rollback, Tx.Commit, ErrTxDone] at hfail ⊢

/-- C18, at a concrete input: on a store with the three rows at 0, an
`Increment(PIN)` whose `Prepare` fails calls `Rollback` and then `Commit`, and
logs the failure of that `Commit`. -/
theorem Increment_commits_after_rollback_witness :
    (Increment { db := schema [], logger := [], count := fun _ => 0 }
        { prepareErr := true } CounterTypePIN).ops = [TxOp.Rollback, TxOp.Commit]
      ∧ (Increment { db := schema [], logger := [], count := fun _ => 0 }
        { prepareErr := true } CounterTypePIN).d.logger = ["failed to commit transaction"] :=
  ⟨(Increment_commits_after_rollback _ { prepareErr := true } CounterTypePIN rfl
      (Or.inl rfl)).1,
    (Increment_commits_after_rollback _ { prepareErr := true } CounterTypePIN rfl
      (Or.inl rfl)).2.1⟩

end database

/-! ## The order of the two validating links -/

namespace middleware

open http

/-- C19: `UserAgent` and `AcceptRequests` commute except on requests that are
invalid for both. For every handler and request, the two compositions have the
same outcome unless the user agent is empty and the method is not GET, HEAD or
OPTIONS: both run the handler when the request passes both checks, and both
reject with the same response, without the handler, when it fails one. On a
request that fails both, `UserAgent (AcceptRequests h)` rejects with code 400
and `AcceptRequests (UserAgent h)` with code 405, neither running the handler;
these are the only requests on which the outcomes differ. -/
theorem UserAgent_AcceptRequests_commute (h : Handler) (w : Exchange) (r : Request) :
    (¬ (r.UserAgent = "" ∧ r.Method ≠ "GET" ∧ r.Method ≠ "HEAD" ∧ r.Method ≠ "OPTIONS") →
        UserAgent (AcceptRequests h) w r = AcceptRequests (UserAgent h) w r)
      ∧ (r.UserAgent ≠ "" → (r.Method = "GET" ∨ r.Method = "HEAD" ∨ r.Method = "OPTIONS") →
          UserAgent (AcceptRequests h) w r = h w r
            ∧ AcceptRequests (UserAgent h) w r = h w r)
      ∧ (¬ (r.UserAgent ≠ "" ∧ (r.Method = "GET" ∨ r.Method = "HEAD" ∨ r.Method = "OPTIONS")) →
          ∀ other : Handler,
            UserAgent (AcceptRequests other) w r = UserAgent (AcceptRequests h) w r
              ∧ AcceptRequests (UserAgent other) w r = AcceptRequests (UserAgent h) w r)
      ∧ ((r.UserAgent = "" ∧ r.Method ≠ "GET" ∧ r.Method ≠ "HEAD" ∧ r.Method ≠ "OPTIONS") →
          UserAgent (AcceptRequests h) w r
              = .returned
                  { response := w.response ++ [Written.error
                      { Code := 400,
                        Message := "User agent is missing. Please provide a valid user agent." }],
                    logger := w.logger }
            ∧ AcceptRequests (UserAgent h) w r
              = .returned
                  { response := w.response ++ [Written.error
                      { Code := 405,
                        Message := "Method " ++ r.Method
                          ++ " not allowed. Must be GET, HEAD, or OPTIONS." }],
                    logger := w.logger }
            ∧ UserAgent (AcceptRequests h) w r ≠ AcceptRequests (UserAgent h) w r) := by
  by_cases hua : r.UserAgent = ""
  · by_cases hm : r.Method ≠ "GET" ∧ r.Method ≠ "HEAD" ∧ r.Method ≠ "OPTIONS"
    · have h1 := UserAgent_reject (AcceptRequests h) w r hua
      have h2 := AcceptRequests_reject (UserAgent h) w r hm
      refine ⟨fun hn => absurd ⟨hua, hm⟩ hn, fun hne => absurd hua hne, fun _ other => ?_,
        fun _ => ⟨by rw [h1]; rfl, by rw [h2]; rfl, ?_⟩⟩
      · exact ⟨by rw [h1, UserAgent_reject _ w r hua],
          by rw [h2, AcceptRequests_reject _ w r hm]⟩
      · rw [h1, h2]
        intro heq
        simp [cerrors.JSON, StatusBadRequest, StatusMethodNotAllowed] at heq
    · have hok : r.Method = "GET" ∨ r.Method = "HEAD" ∨ r.Method = "OPTIONS" := by
        by_contra hcon
        exact hm ⟨fun e => hcon (Or.inl e), fun e => hcon (Or.inr (Or.inl e)),
          fun e => hcon (Or.inr (Or.inr e))⟩
      have h1 : ∀ g : Handler, UserAgent (AcceptRequests g) w r
          = AcceptRequests (UserAgent g) w r := fun g => by
        rw [UserAgent_reject _ w r hua, AcceptRequests_forward _ w r hok,
          UserAgent_reject _ w r hua]
      refine ⟨fun _ => h1 h, fun hne => absurd hua hne, fun _ other => ?_,
        fun hboth => absurd hboth.2 hm⟩
      exact ⟨by rw [UserAgent_reject _ w r hua, UserAgent_reject _ w r hua],
        by rw [← h1, ← h1, UserAgent_reject _ w r hua, UserAgent_reject _ w r hua]⟩
  · by_cases hm : r.Method ≠ "GET" ∧ r.Method ≠ "HEAD" ∧ r.Method ≠ "OPTIONS"
    · have h1 : ∀ g : Handler, UserAgent (AcceptRequests g) w r
          = AcceptRequests (UserAgent g) w r := fun g => by
        rw [UserAgent_forward _ w r hua, AcceptRequests_reject _ w r hm,
          AcceptRequests_reject _ w r hm]
      refine ⟨fun _ => h1 h, fun _ hok => ?_, fun _ other => ?_,
        fun hboth => absurd hboth.1 hua⟩
      · rcases hok with e | e | e
        · exact absurd e hm.1
        · exact absurd e hm.2.1
        · exact absurd e hm.2.2
      · exact ⟨by rw [h1, h1, AcceptRequests_reject _ w r hm, AcceptRequests_reject _ w r hm],
          by rw [AcceptRequests_reject _ w r hm, AcceptRequests_reject _ w r hm]⟩
    · have hok : r.Method = "GET" ∨ r.Method = "HEAD" ∨ r.Method = "OPTIONS" := by
        by_contra hcon
        exact hm ⟨fun e => hcon (Or.inl e), fun e => hcon (Or.inr (Or.inl e)),
          fun e => hcon (Or.inr (Or.inr e))⟩
      have h1 : UserAgent (AcceptRequests h) w r = h w r := by
        rw [UserAgent_forward _ w r hua, AcceptRequests_forward _ w r hok]
      have h2 : AcceptRequests (UserAgent h) w r = h w r := by
        rw [AcceptRequests_forward _ w r hok, UserAgent_forward _ w r hua]
      exact ⟨fun _ => by rw [h1, h2], fun _ _ => ⟨h1, h2⟩,
        fun hn => absurd ⟨hua, hok⟩ hn, fun hboth => absurd hboth.1 hua⟩

/-- C19, at concrete inputs: on a PUT request without a user agent the two
orders answer 400 and 405; on a PUT request with a user agent both answer 405. -/
theorem UserAgent_AcceptRequests_commute_witness :
    (UserAgent (AcceptRequests (fun w _ => .returned w)) { response := [], logger := [] }
        { Method := "PUT", Header := [], Query := [] }
      = .returned
          { response := [Written.error
              { Code := 400,
                Message := "User agent is missing. Please provide a valid user agent." }],
            logger := [] }
      ∧ AcceptRequests (UserAgent (fun w _ => .returned w)) { response := [], logger := [] }
        { Method := "PUT", Header := [], Query := [] }
      = .returned
          { response := [Written.error
              { Code := 405,
                Message := "Method PUT not allowed. Must be GET, HEAD, or OPTIONS." }],
            logger := [] })
    ∧ UserAgent (AcceptRequests (fun w _ => .returned w)) { response := [], logger := [] }
        { Method := "PUT", Header := [("User-Agent", "curl/8.0")], Query := [] }
      = AcceptRequests (UserAgent (fun w _ => .returned w)) { response := [], logger := [] }
        { Method := "PUT", Header := [("User-Agent", "curl/8.0")], Query := [] } :=
  ⟨⟨((UserAgent_AcceptRequests_commute _ _ _).2.2.2 (by decide)).1,
      ((UserAgent_AcceptRequests_commute _ _ _).2.2.2 (by decide)).2.1⟩,
    (UserAgent_AcceptRequests_commute _ _ _).1 (by decide)⟩

end middleware

/-! ## The claims on the generation handlers -/

namespace handler

open http

theorem Atoi_ne_empty {q : String} {n : Int} (h : strconv.Atoi q = some n) : q ≠ "" := by
  intro hq
  have h0 : strconv.Atoi "" = none := by decide
  rw [hq, h0] at h
  exact Option.noConfusion h

theorem Itoa_max : strconv.Itoa 64 = "64" ∧ strconv.Itoa 256 = "256" := by
  constructor <;> decide

/-- C12: a `length` that is not an integer is answered with code 500 by the
diceware and PIN handlers. For every request whose `length` value is not
empty and is rejected by `strconv.Atoi`, the diceware handler and the PIN
handler emit one error response of code 500, make no password and start no
increment; the random handler answers the same request with code 400. -/
theorem length_parse_error_code (g : acopw.Package) (rt : Runtime) (w : Exchange)
    (r : Request) (hne : r.QueryGet "length" ≠ "")
    (hbad : strconv.Atoi (r.QueryGet "length") = none) :
    DicewareHandler.ServeHTTP g rt w r
        = { out := .returned
              { response := w.response ++ [Written.error
                  { Code := 500,
                    Message := "Cannot parse the given diceware length. Please provide a valid integer." }],
                logger := w.logger ++ ["error parsing diceware length"] },
            generated := [], spawned := [] }
      ∧ PINHandler.ServeHTTP g rt w r
        = { out := .returned
              { response := w.response ++ [Written.error
                  { Code := 500,
                    Message := "Cannot parse the given PIN length. Please provide a valid integer." }],
                logger := w.logger ++ ["error parsing PIN length"] },
            generated := [], spawned := [] }
      ∧ RandomHandler.ServeHTTP g rt w r
        = { out := .returned
              { response := w.response ++ [Written.error
                  { Code := 400,
                    Message := "Cannot parse the given password length. Please provide a valid integer." }],
                logger := w.logger ++ ["error parsing password length"] },
            generated := [], spawned := [] } := by
  refine ⟨?_, ?_, ?_⟩
  · simp [DicewareHandler.ServeHTTP, hne, hbad, cerrors.JSON, logged, StatusInternalServerError]
  · simp [PINHandler.ServeHTTP, hne, hbad, cerrors.JSON, logged, StatusInternalServerError]
  · simp [RandomHandler.ServeHTTP, hne, hbad, cerrors.JSON, logged, StatusBadRequest]

/-- C12, at a concrete input: a request with `length=abc` gets status 500 from
the diceware handler, which makes no password and starts no increment. -/
theorem length_parse_error_code_witness :
    DicewareHandler.ServeHTTP
        ⟨8, 128, 6, fun _ _ _ => .ok "correct-horse", fun _ _ _ _ _ => "x", fun _ => "1"⟩
        ⟨fun _ => "", false⟩ { response := [], logger := [] }
        { Method := "GET", Header := [("User-Agent", "curl/8.0")], Query := [("length", "abc")] }
      = { out := .returned
            { response := [Written.error
                { Code := 500,
                  Message := "Cannot parse the given diceware length. Please provide a valid integer." }],
              logger := ["error parsing diceware length"] },
          generated := [], spawned := [] } :=
  (length_parse_error_code _ _ _ _ (by decide) (by decide)).1

/-- What the diceware handler takes from the `capitalize` and `separator`
parameters of a request. -/
theorem DicewareHandler_generated_of_length (g : acopw.Package) (rt : Runtime) (w : Exchange)
    (r : Request) (n length : Int) (hparse : strconv.Atoi (r.QueryGet "length") = some n)
    (hlen : (if n < 1 then g.DefaultDicewareLength else n) = length)
    (hmax : length ≤ 64) :
    (DicewareHandler.ServeHTTP g rt w r).generated
      = [Generated.Diceware
          (if r.QueryGet "separator" = "" then "-" else r.QueryGet "separator")
          (decide (r.QueryGet "capitalize" = "true")) length] := by
  have hne := Atoi_ne_empty hparse
  have hnot : ¬ (MaxDicewareLength < length) := by
    simp only [MaxDicewareLength]; omega
  simp only [DicewareHandler.ServeHTTP, hne, hparse, hlen, ne_eq, not_false_eq_true, if_true,
    gt_iff_lt, hnot, if_false, DefaultDicewareSeparator]
  cases g.Diceware (if r.QueryGet "separator" = "" then "-" else r.QueryGet "separator")
      (decide (r.QueryGet "capitalize" = "true")) length with
  | error e => rfl
  | ok password =>
    simp only [writePassword]
    split <;> rfl

theorem PINHandler_generated_of_length (g : acopw.Package) (rt : Runtime) (w : Exchange)
    (r : Request) (n length : Int) (hparse : strconv.Atoi (r.QueryGet "length") = some n)
    (hlen : (if n < 1 then g.DefaultPINLength else n) = length)
    (hmax : length ≤ 64) :
    (PINHandler.ServeHTTP g rt w r).generated = [Generated.PIN length] := by
  have hne := Atoi_ne_empty hparse
  have hnot : ¬ (MaxPINLength < length) := by
    simp only [MaxPINLength]; omega
  simp only [PINHandler.ServeHTTP, hne, hparse, hlen, ne_eq, not_false_eq_true, if_true,
    gt_iff_lt, hnot, if_false, writePassword]
  split <;> rfl

theorem RandomHandler_generated_of_length (g : acopw.Package) (rt : Runtime) (w : Exchange)
    (r : Request) (n length : Int) (lo up nu sy : Bool)
    (hparse : strconv.Atoi (r.QueryGet "length") = some n)
    (hlen : (if n < 1 then g.DefaultRandomLength else n) = length)
    (hmax : length ≤ 256)
    (hlo : parseFlag w r "lowercase" = .ok lo) (hup : parseFlag w r "uppercase" = .ok up)
    (hnu : parseFlag w r "numbers" = .ok nu) (hsy : parseFlag w r "symbols" = .ok sy) :
    (RandomHandler.ServeHTTP g rt w r).generated = [Generated.Random length lo up nu sy] := by
  have hne := Atoi_ne_empty hparse
  have hnot : ¬ (MaxRandomLength < length) := by
    simp only [MaxRandomLength]; omega
  simp only [RandomHandler.ServeHTTP, hne, hparse, hlen, ne_eq, not_false_eq_true, if_true,
    gt_iff_lt, hnot, if_false, hlo, hup, hnu, hsy, writePassword]
  split <;> rfl

/-- C13: an over-long request is rejected citing the maximum. For every
request whose `length` value parses to an integer n: when n exceeds the
maximum of the handler (64 for diceware and PIN, 256 for random) the handler
emits one error response of code 400 whose message ends with the decimal
rendering of the maximum, calls no generator and starts no increment; when n
is between 1 and the maximum, the maximum included, the generator is called
with length n; when n is below 1 the generator is called with the default
length of the endpoint (which the library keeps within the maximum). For the
random handler the generator is reached when the four flags parse. -/
theorem length_over_maximum (g : acopw.Package) (rt : Runtime) (w : Exchange)
    (r : Request) (n : Int) (hparse : strconv.Atoi (r.QueryGet "length") = some n) :
    (64 < n →
        DicewareHandler.ServeHTTP g rt w r
            = { out := .returned
                  { response := w.response ++ [Written.error
                      { Code := 400,
                        Message := "The given password length is too long. Please provide a length less than or equal to "
                          ++ strconv.Itoa 64 ++ "." }],
                    logger := w.logger ++ ["password length is too long"] },
                generated := [], spawned := [] }
          ∧ PINHandler.ServeHTTP g rt w r
            = { out := .returned
                  { response := w.response ++ [Written.error
                      { Code := 400,
                        Message := "The given PIN length is too long. Please provide a length less than or equal to "
                          ++ strconv.Itoa 64 ++ "." }],
                    logger := w.logger ++ ["PIN length is too long"] },
                generated := [], spawned := [] })
      ∧ (256 < n →
          RandomHandler.ServeHTTP g rt w r
            = { out := .returned
                  { response := w.response ++ [Written.error
                      { Code := 400,
                        Message := "The given password length is too long. Please provide a length less than or equal to "
                          ++ strconv.Itoa 256 ++ "." }],
                    logger := w.logger ++ ["password length is too long"] },
                generated := [], spawned := [] })
      ∧ (strconv.Itoa 64 = "64" ∧ strconv.Itoa 256 = "256")
      ∧ (1 ≤ n → n ≤ 64 →
          (DicewareHandler.ServeHTTP g rt w r).generated
              = [Generated.Diceware
                  (if r.QueryGet "separator" = "" then "-" else r.QueryGet "separator")
                  (decide (r.QueryGet "capitalize" = "true")) n]
            ∧ (PINHandler.ServeHTTP g rt w r).generated = [Generated.PIN n])
      ∧ (1 ≤ n → n ≤ 256 → ∀ lo up nu sy,
          parseFlag w r "lowercase" = .ok lo → parseFlag w r "uppercase" = .ok up →
          parseFlag w r "numbers" = .ok nu → parseFlag w r "symbols" = .ok sy →
          (RandomHandler.ServeHTTP g rt w r).generated = [Generated.Random n lo up nu sy])
      ∧ (n < 1 → g.DefaultDicewareLength ≤ 64 →
          (DicewareHandler.ServeHTTP g rt w r).generated
              = [Generated.Diceware
                  (if r.QueryGet "separator" = "" then "-" else r.QueryGet "separator")
                  (decide (r.QueryGet "capitalize" = "true")) g.DefaultDicewareLength])
      ∧ (n < 1 → g.DefaultPINLength ≤ 64 →
          (PINHandler.ServeHTTP g rt w r).generated = [Generated.PIN g.DefaultPINLength])
      ∧ (n < 1 → g.DefaultRandomLength ≤ 256 → ∀ lo up nu sy,
          parseFlag w r "lowercase" = .ok lo → parseFlag w r "uppercase" = .ok up →
          parseFlag w r "numbers" = .ok nu → parseFlag w r "symbols" = .ok sy →
          (RandomHandler.ServeHTTP g rt w r).generated
            = [Generated.Random g.DefaultRandomLength lo up nu sy]) := by
  have hne := Atoi_ne_empty hparse
  refine ⟨fun hn => ⟨?_, ?_⟩, fun hn => ?_, Itoa_max, fun h1 hn => ⟨?_, ?_⟩,
    fun h1 hn lo up nu sy hlo hup hnu hsy => ?_, fun h1 hd => ?_, fun h1 hd => ?_,
    fun h1 hd lo up nu sy hlo hup hnu hsy => ?_⟩
  · have h1 : ¬ n < 1 := by omega
    simp [DicewareHandler.ServeHTTP, hne, hparse, h1, MaxDicewareLength, hn, cerrors.JSON,
      logged, StatusBadRequest]
  · have h1 : ¬ n < 1 := by omega
    simp [PINHandler.ServeHTTP, hne, hparse, h1, MaxPINLength, hn, cerrors.JSON,
      logged, StatusBadRequest]
  · have h1 : ¬ n < 1 := by omega
    simp [RandomHandler.ServeHTTP, hne, hparse, h1, MaxRandomLength, hn, cerrors.JSON,
      logged, StatusBadRequest]
  · exact DicewareHandler_generated_of_length g rt w r n n hparse
      (if_neg (by omega)) hn
  · exact PINHandler_generated_of_length g rt w r n n hparse (if_neg (by omega)) hn
  · exact RandomHandler_generated_of_length g rt w r n n lo up nu sy hparse
      (if_neg (by omega)) hn hlo hup hnu hsy
  · exact DicewareHandler_generated_of_length g rt w r n _ hparse (if_pos h1) hd
  · exact PINHandler_generated_of_length g rt w r n _ hparse (if_pos h1) hd
  · exact RandomHandler_generated_of_length g rt w r n _ lo up nu sy hparse
      (if_pos h1) hd hlo hup hnu hsy

/-- C13, at concrete inputs: `length=65` is rejected by the diceware handler
with code 400 and a message that cites 64, and `length=64` reaches the
generator of the PIN handler. -/
theorem length_over_maximum_witness :
    DicewareHandler.ServeHTTP
        ⟨8, 128, 6, fun _ _ _ => .ok "correct-horse", fun _ _ _ _ _ => "x", fun _ => "1"⟩
        ⟨fun _ => "", false⟩ { response := [], logger := [] }
        { Method := "GET", Header := [], Query := [("length", "65")] }
      = { out := .returned
            { response := [Written.error
                { Code := 400,
                  Message := "The given password length is too long. Please provide a length less than or equal to "
                    ++ strconv.Itoa 64 ++ "." }],
              logger := ["password length is too long"] },
          generated := [], spawned := [] }
    ∧ (PINHandler.ServeHTTP
        ⟨8, 128, 6, fun _ _ _ => .ok "correct-horse", fun _ _ _ _ _ => "x", fun _ => "1"⟩
        ⟨fun _ => "", false⟩ { response := [], logger := [] }
        { Method := "GET", Header := [], Query := [("length", "64")] }).generated
      = [Generated.PIN 64] :=
  ⟨((length_over_maximum _ _ _ _ 65 (by decide)).1 (by decide)).1,
    ((length_over_maximum _ _ _ _ 64 (by decide)).2.2.2.1 (by decide) (by decide)).2⟩

/-! ## The claims on the metrics and health endpoints -/

theorem statusOf_append_of_none (a b : List Written) (h : statusOf a = none) :
    statusOf (a ++ b) = statusOf b := by
  induction a with
  | nil => rfl
  | cons e rest ih =>
    cases e with
    | header k v => exact ih h
    | status c => simp [statusOf] at h
    | body data => simp [statusOf] at h
    | error resp => simp [statusOf] at h

theorem addUint64_total (a b c : Nat) :
    addUint64 (addUint64 a b) c = (b + a + c) % database.uint64Size := by
  unfold addUint64
  rw [Nat.add_mod ((a + b) % database.uint64Size), Nat.mod_mod, ← Nat.add_mod, Nat.add_comm a b]

/-- C14: the metrics endpoint reports the four counters without side effects.
For every store state, the value the handler hands to `json.Marshal` and
writes has `random = Count(Random)`, `diceware = Count(Diceware)`,
`pin = Count(PIN)` and `total = (random + diceware + pin) mod 2^64`; the store
the handler leaves is the store it found. The response is the JSON header and
that body, followed by an error response only when the write fails. -/
theorem MetricsHandler_reports (d : database.DB) (rt : Runtime) (w : Exchange) (r : Request) :
    (MetricsHandler.ServeHTTP d rt w r).1 = d
      ∧ (rt.writeErr = false →
          (MetricsHandler.ServeHTTP d rt w r).2
            = .returned
                { response := w.response ++
                    [Written.header "Content-Type" "application/json",
                     Written.body (rt.Marshal (.metrics
                      { Random := database.Count d "Random",
                        Diceware := database.Count d "Diceware",
                        PIN := database.Count d "PIN",
                        Total := (database.Count d "Random" + database.Count d "Diceware"
                          + database.Count d "PIN") % 2 ^ 64 }))],
                  logger := w.logger })
      ∧ (rt.writeErr = true →
          (MetricsHandler.ServeHTTP d rt w r).2
            = .returned
                { response := w.response ++
                    [Written.header "Content-Type" "application/json",
                     Written.body (rt.Marshal (.metrics
                      { Random := database.Count d "Random",
                        Diceware := database.Count d "Diceware",
                        PIN := database.Count d "PIN",
                        Total := (database.Count d "Random" + database.Count d "Diceware"
                          + database.Count d "PIN") % 2 ^ 64 })),
                     Written.error
                      { Code := 500,
                        Message := "Failed to write access counter JSON to response." }],
                  logger := w.logger ++ ["Failed to write access counter JSON to response"] }) := by
  have htotal := addUint64_total (database.Count d database.CounterTypeDiceware)
    (database.Count d database.CounterTypeRandom) (database.Count d database.CounterTypePIN)
  refine ⟨?_, fun hw => ?_, fun hw => ?_⟩
  · unfold MetricsHandler.ServeHTTP
    simp only
    split <;> rfl
  · simp only [MetricsHandler.ServeHTTP, Write, hw, htotal]
    simp [setHeader, model.NewMetrics, xhttp.ContentType, xhttp.ApplicationJSON,
      database.CounterTypeRandom, database.CounterTypeDiceware, database.CounterTypePIN,
      database.uint64Size]
  · simp only [MetricsHandler.ServeHTTP, Write, hw, htotal]
    simp [setHeader, model.NewMetrics, xhttp.ContentType, xhttp.ApplicationJSON,
      database.CounterTypeRandom, database.CounterTypeDiceware, database.CounterTypePIN,
      database.uint64Size, cerrors.JSON, logged, StatusInternalServerError]

/-- C15: the health endpoint reflects the state of the store. `Ping` returns
nil exactly when the probe query succeeds and yields 1. When the write
succeeds, the handler writes the JSON header and one body: the name and
version of package build and exactly one dependency, "sqlite", whose status is
"Online" when `Ping` returns nil and "Offline" otherwise; it writes no status
code and no error response, so on a writer that nothing was written to the
status is 200 in both cases. A failed `Ping` is logged. -/
theorem HealthHandler_reports (d : database.DB) (probe : Except String Int) (rt : Runtime)
    (w : Exchange) (r : Request) (hw : rt.writeErr = false) :
    (database.Ping d probe = none ↔ probe = .ok 1)
      ∧ HealthHandler.ServeHTTP d probe rt w r
        = .returned
            { response := w.response ++
                [Written.header "Content-Type" "application/json",
                 Written.body (rt.Marshal (.health
                  { Name := "Accio Password", Version := "0.1.0",
                    Dependencies :=
                      [{ Service := "sqlite",
                         Status := if database.Ping d probe = none then "Online"
                           else "Offline" }] }))],
              logger := if database.Ping d probe = none then w.logger
                else w.logger ++ ["Database is offline"] }
      ∧ (statusOf w.response = none →
          statusOf (HealthHandler.ServeHTTP d probe rt w r).exchange.response = some 200) := by
  have hping : database.Ping d probe = none ↔ probe = .ok 1 := by
    cases probe with
    | error e => simp [database.Ping]
    | ok v => simp [database.Ping]
  have hserve : HealthHandler.ServeHTTP d probe rt w r
      = .returned
          { response := w.response ++
              [Written.header "Content-Type" "application/json",
               Written.body (rt.Marshal (.health
                { Name := "Accio Password", Version := "0.1.0",
                  Dependencies :=
                    [{ Service := "sqlite",
                       Status := if database.Ping d probe = none then "Online"
                         else "Offline" }] }))],
            logger := if database.Ping d probe = none then w.logger
              else w.logger ++ ["Database is offline"] } := by
    cases hp : database.Ping d probe with
    | none =>
      simp [HealthHandler.ServeHTTP, hp, Write, hw, setHeader, model.NewHealth, Online,
        build.Name, build.Version, xhttp.ContentType, xhttp.ApplicationJSON]
    | some e =>
      simp [HealthHandler.ServeHTTP, hp, Write, hw, setHeader, model.NewHealth, Offline,
        build.Name, build.Version, xhttp.ContentType, xhttp.ApplicationJSON, logged]
  refine ⟨hping, hserve, fun hfresh => ?_⟩
  rw [hserve]
  simp only [Outcome.exchange]
  rw [statusOf_append_of_none _ _ hfresh]
  rfl

/-- C15, at concrete inputs: with a probe that yields 1 the health handler
reports "Online", with a probe that fails it reports "Offline", and the status
is 200 both times. -/
theorem HealthHandler_reports_witness :
    HealthHandler.ServeHTTP { db := [], logger := [], count := fun _ => 0 } (.ok 1)
        ⟨fun p => match p with
          | .health h => String.intercalate "," (h.Dependencies.map (fun x => x.Status))
          | _ => "", false⟩
        { response := [], logger := [] } { Method := "GET", Header := [], Query := [] }
      = .returned
          { response := [Written.header "Content-Type" "application/json", Written.body "Online"],
            logger := [] }
    ∧ statusOf (HealthHandler.ServeHTTP { db := [], logger := [], count := fun _ => 0 }
        (.error "database is locked")
        ⟨fun p => match p with
          | .health h => String.intercalate "," (h.Dependencies.map (fun x => x.Status))
          | _ => "", false⟩
        { response := [], logger := [] }
        { Method := "GET", Header := [], Query := [] }).exchange.response = some 200 :=
  ⟨(HealthHandler_reports _ (.ok 1) _ _ _ rfl).2.1,
    (HealthHandler_reports _ (.error "database is locked") _ _ _ rfl).2.2 rfl⟩

/-- C14, at a concrete input: with counts 2, 3 and 2^64 - 4 the total that is
written is 1, the sum modulo 2^64, and the store is left as it was found. -/
theorem MetricsHandler_reports_witness :
    (MetricsHandler.ServeHTTP
        { db := [], logger := [],
          count := fun k => if k = "Random" then 2 else if k = "Diceware" then 3
            else 2 ^ 64 - 4 }
        ⟨fun p => match p with
          | .metrics m => toString m.Total
          | _ => "", false⟩
        { response := [], logger := [] } { Method := "GET", Header := [], Query := [] }).2
      = .returned
          { response := [Written.header "Content-Type" "application/json", Written.body "1"],
            logger := [] } :=
  (MetricsHandler_reports _ _ _ _).2.1 rfl

end handler

/-! ## The claims on the construction and lifecycle of the server -/

namespace server

/-- C16: `New` panics on a version that is neither "1.3" nor "1.2". For every
configuration whose certificate and key load and whose TLS version is any
other string, no profile is selected, `tlsConfig` stays nil, and attaching the
certificate dereferences it. -/
theorem New_panics_on_other_version (cert : String) (cfg : config.Config)
    (h13 : cfg.Server.TLS.Version ≠ "1.3") (h12 : cfg.Server.TLS.Version ≠ "1.2") :
    New (.ok cert) cfg
      = .panic "runtime error: invalid memory address or nil pointer dereference" := by
  simp [New, h13, h12]

/-- C16, at a concrete input: a configuration file that omits the TLS version
is given `DefaultMinTLSVersion`, "TLS13", by `LoadConfig`, and `New` panics on
the configuration `LoadConfig` returns. -/
theorem New_panics_on_other_version_witness :
    ∃ cfg, config.LoadConfig (.ok (some
          ⟨some ⟨some ⟨"cert.pem", "key.pem", ""⟩, "", ""⟩, some ⟨""⟩,
            "https://example.com/privacy", "https://example.com/terms"⟩)) = .ok cfg
      ∧ cfg.Server.TLS.Version = config.DefaultMinTLSVersion
      ∧ New (.ok "certificate") cfg
        = .panic "runtime error: invalid memory address or nil pointer dereference" :=
  ⟨_, rfl, rfl, New_panics_on_other_version _ _ (by decide) (by decide)⟩

theorem step_without_signal (s : Running) (e : Event) (he : e ≠ .signal)
    (h : s.watcher = .waiting ∧ s.main ≠ .returned none) :
    (step s e).watcher = .waiting ∧ (step s e).main ≠ .returned none := by
  obtain ⟨hw, hm⟩ := h
  cases e with
  | signal => exact absurd rfl he
  | watcherShutdown => simp [step, hw, hm]
  | watcherClose => simp [step, hw, hm]
  | Shutdown => simp [step, hw, hm]
  | serveClosed =>
    simp only [step]
    split <;> simp [hw, hm]
  | serveFailed e =>
    simp only [step]
    split <;> simp [hw, hm]
  | received => simp [step, hw, hm]

theorem after_without_signal (events : List Event) :
    ∀ s : Running, Event.signal ∉ events →
      s.watcher = .waiting ∧ s.main ≠ .returned none →
      (s.after events).watcher = .waiting ∧ (s.after events).main ≠ .returned none := by
  induction events with
  | nil => intro s _ h; exact h
  | cons e rest ih =>
    intro s hsig h
    have he : e ≠ .signal := fun heq => hsig (heq ▸ List.mem_cons_self _ _)
    have hrest : Event.signal ∉ rest := fun hmem => hsig (List.mem_cons_of_mem _ hmem)
    exact ih (step s e) hrest (step_without_signal s e he h)

/-- C17: `Start` does not return nil without a signal. From the state in which
`Start` is serving, after any sequence of events in which no interrupt or
termination signal is delivered, calls of `Server.Shutdown` included, `Start`
has not returned nil: the goroutine that closes `shutdownCompleted` is still
waiting for a signal. -/
theorem Start_waits_for_signal (events : List Event) (hsig : Event.signal ∉ events) :
    (started.after events).main ≠ .returned none
      ∧ (started.after events).watcher = .waiting := by
  have h := after_without_signal events started hsig ⟨rfl, by decide⟩
  exact ⟨h.2, h.1⟩

/-- C17, at concrete inputs: after `Shutdown` has completed and
`ListenAndServeTLS` has returned, `Start` is blocked on `shutdownCompleted`
and stays so; with a signal delivered first the same steps make it return nil. -/
theorem Start_waits_for_signal_witness :
    (started.after [.Shutdown, .serveClosed, .received]).main ≠ .returned none
      ∧ (started.after [.Shutdown, .serveClosed, .received]).main = .waiting
      ∧ (started.after [.signal, .watcherShutdown, .serveClosed, .watcherClose,
          .received]).main = .returned none :=
  ⟨(Start_waits_for_signal [.Shutdown, .serveClosed, .received] (by decide)).1,
    by decide, by decide⟩

end server

/-! ## One response per request -/

namespace handler

open http middleware

theorem emissions_append (a b : List Written) :
    emissions (a ++ b) = emissions a + emissions b := by
  induction a with
  | nil => simp [emissions]
  | cons e rest ih =>
    cases e <;> simp [emissions, ih] <;> omega

theorem writePassword_emissions (rt : Runtime) (w : Exchange) (r : Request)
    (passwordModel : model.Password) (password counterType : String)
    (generated : List Generated) (hw : rt.writeErr = false) :
    emissions (writePassword rt w r passwordModel password counterType
        generated).out.exchange.response
      = emissions w.response + 1 := by
  unfold writePassword
  by_cases hct : r.Header.Get xhttp.ContentType = xhttp.ApplicationJSON
  · simp [hct, Write, hw, Outcome.exchange, setHeader, emissions_append, emissions]
  · simp [hct, Write, hw, Outcome.exchange, setHeader, emissions_append, emissions]

theorem JSON_emissions (w : Exchange) (msg : String) (resp : cerrors.ErrorResponse) :
    emissions (cerrors.JSON (logged w msg) resp).response = emissions w.response + 1 := by
  simp [cerrors.JSON, logged, emissions_append, emissions]

/-- With a write that succeeds, the diceware handler makes one emission,
whatever the request and the generator. -/
theorem DicewareHandler_emissions (g : acopw.Package) (rt : Runtime) (w : Exchange)
    (r : Request) (hw : rt.writeErr = false) :
    emissions (DicewareHandler.ServeHTTP g rt w r).out.exchange.response
      = emissions w.response + 1 := by
  unfold DicewareHandler.ServeHTTP
  by_cases hq : r.QueryGet "length" = ""
  · simp only [hq, ne_eq, not_true_eq_false, if_false]
    split
    · exact JSON_emissions _ _ _
    · exact writePassword_emissions _ _ _ _ _ _ _ hw
  · cases hA : strconv.Atoi (r.QueryGet "length") with
    | none =>
      simp only [hq, ne_eq, not_false_eq_true, if_true, hA]
      exact JSON_emissions _ _ _
    | some parsed =>
      by_cases hmax : (if parsed < 1 then g.DefaultDicewareLength else parsed)
          > MaxDicewareLength
      · simp only [hq, ne_eq, not_false_eq_true, if_true, hA, hmax]
        exact JSON_emissions _ _ _
      · simp only [hq, ne_eq, not_false_eq_true, if_true, hA, hmax, if_false]
        split
        · exact JSON_emissions _ _ _
        · exact writePassword_emissions _ _ _ _ _ _ _ hw

theorem writePassword_returns (rt : Runtime) (w : Exchange) (r : Request)
    (passwordModel : model.Password) (password counterType : String)
    (generated : List Generated) :
    ∃ x, (writePassword rt w r passwordModel password counterType generated).out
      = .returned x := by
  unfold writePassword
  cases hw : rt.writeErr <;>
    by_cases hct : r.Header.Get xhttp.ContentType = xhttp.ApplicationJSON <;>
    simp [hct, Write, hw]

/-- The diceware handler returns; it does not panic. -/
theorem DicewareHandler_returns (g : acopw.Package) (rt : Runtime) (w : Exchange)
    (r : Request) : ∃ x, (DicewareHandler.ServeHTTP g rt w r).out = .returned x := by
  unfold DicewareHandler.ServeHTTP
  by_cases hq : r.QueryGet "length" = ""
  · simp only [hq, ne_eq, not_true_eq_false, if_false]
    split
    · exact ⟨_, rfl⟩
    · exact writePassword_returns _ _ _ _ _ _ _
  · cases hA : strconv.Atoi (r.QueryGet "length") with
    | none =>
      simp only [hq, ne_eq, not_false_eq_true, if_true, hA]
      exact ⟨_, rfl⟩
    | some parsed =>
      by_cases hmax : (if parsed < 1 then g.DefaultDicewareLength else parsed)
          > MaxDicewareLength
      · simp only [hq, ne_eq, not_false_eq_true, if_true, hA, hmax]
        exact ⟨_, rfl⟩
      · simp only [hq, ne_eq, not_false_eq_true, if_true, hA, hmax, if_false]
        split
        · exact ⟨_, rfl⟩
        · exact writePassword_returns _ _ _ _ _ _ _

theorem PanicRecovery_of_returned (next : Handler) (w : Exchange) (r : Request) (x : Exchange)
    (h : next w r = .returned x) : PanicRecovery next w r = .returned x := by
  simp [PanicRecovery, h]

/-- The chain of the three links when one of the two checks fails: one error
response, whatever the handler. -/
theorem chain_reject (h : Handler) (w : Exchange) (r : Request)
    (hrej : r.UserAgent = "" ∨ (r.Method ≠ "GET" ∧ r.Method ≠ "HEAD" ∧ r.Method ≠ "OPTIONS")) :
    ∃ resp, PanicRecovery (UserAgent (AcceptRequests h)) w r
      = .returned (cerrors.JSON w resp) := by
  by_cases hua : r.UserAgent = ""
  · exact ⟨_, PanicRecovery_of_returned _ w r _ (UserAgent_reject _ w r hua)⟩
  · rcases hrej with h1 | h2
    · exact absurd h1 hua
    · exact ⟨_, PanicRecovery_of_returned _ w r _
        ((UserAgent_forward _ w r hua).trans (AcceptRequests_reject _ w r h2))⟩

theorem chain_reject_eq (h other : Handler) (w : Exchange) (r : Request)
    (hrej : r.UserAgent = "" ∨ (r.Method ≠ "GET" ∧ r.Method ≠ "HEAD" ∧ r.Method ≠ "OPTIONS")) :
    PanicRecovery (UserAgent (AcceptRequests other)) w r
      = PanicRecovery (UserAgent (AcceptRequests h)) w r := by
  by_cases hua : r.UserAgent = ""
  · rw [PanicRecovery_of_returned _ w r _ (UserAgent_reject _ w r hua),
      PanicRecovery_of_returned _ w r _ (UserAgent_reject _ w r hua)]
  · rcases hrej with h1 | h2
    · exact absurd h1 hua
    · rw [PanicRecovery_of_returned _ w r _
          ((UserAgent_forward _ w r hua).trans (AcceptRequests_reject _ w r h2)),
        PanicRecovery_of_returned _ w r _
          ((UserAgent_forward _ w r hua).trans (AcceptRequests_reject _ w r h2))]

theorem chain_accept (h : Handler) (w : Exchange) (r : Request) (hua : r.UserAgent ≠ "")
    (hm : r.Method = "GET" ∨ r.Method = "HEAD" ∨ r.Method = "OPTIONS") :
    PanicRecovery (UserAgent (AcceptRequests h)) w r = PanicRecovery h w r := by
  have hfw : UserAgent (AcceptRequests h) w r = h w r :=
    (UserAgent_forward _ w r hua).trans (AcceptRequests_forward _ w r hm)
  simp only [PanicRecovery, hfw]

/-- C11, as the code has it: on a response writer that nothing was emitted to,
the chain `PanicRecovery`, `UserAgent`, `AcceptRequests`, handler makes exactly
one emission when one of the two checks rejects the request (the handler is
not run); when the handler returns, the chain leaves what the handler wrote;
when the handler panics before emitting anything, the chain emits exactly the
one 500 response; and around the diceware handler it makes exactly one
emission on every request, as long as the write of the body succeeds. -/
theorem one_emission_per_request (g : acopw.Package) (rt : Runtime) (h : Handler)
    (w : Exchange) (r : Request) (hfresh : emissions w.response = 0) :
    ((r.UserAgent = "" ∨ (r.Method ≠ "GET" ∧ r.Method ≠ "HEAD" ∧ r.Method ≠ "OPTIONS")) →
        emissions (PanicRecovery (UserAgent (AcceptRequests h)) w r).exchange.response = 1
          ∧ ∀ other : Handler, PanicRecovery (UserAgent (AcceptRequests other)) w r
              = PanicRecovery (UserAgent (AcceptRequests h)) w r)
      ∧ (r.UserAgent ≠ "" → (r.Method = "GET" ∨ r.Method = "HEAD" ∨ r.Method = "OPTIONS") →
          (∀ x, h w r = .returned x →
              PanicRecovery (UserAgent (AcceptRequests h)) w r = .returned x)
            ∧ ∀ v x, h w r = .panicked v x → emissions x.response = 0 →
              (PanicRecovery (UserAgent (AcceptRequests h)) w r).exchange.response
                  = x.response ++ [Written.error
                      { Code := 500,
                        Message := "Internal server error. Please try again later." }]
                ∧ emissions
                    (PanicRecovery (UserAgent (AcceptRequests h)) w r).exchange.response = 1)
      ∧ (rt.writeErr = false →
          emissions (PanicRecovery (UserAgent (AcceptRequests
            (fun w r => (DicewareHandler.ServeHTTP g rt w r).out))) w r).exchange.response
            = 1) := by
  have hrejected : ∀ k : Handler,
      (r.UserAgent = "" ∨ (r.Method ≠ "GET" ∧ r.Method ≠ "HEAD" ∧ r.Method ≠ "OPTIONS")) →
      emissions (PanicRecovery (UserAgent (AcceptRequests k)) w r).exchange.response = 1 := by
    intro k hrej
    obtain ⟨resp, hresp⟩ := chain_reject k w r hrej
    rw [hresp]
    simp [Outcome.exchange, cerrors.JSON, emissions_append, emissions, hfresh]
  refine ⟨fun hrej => ⟨hrejected h hrej, fun other => chain_reject_eq h other w r hrej⟩,
    fun hua hm => ⟨fun x hx => ?_, fun v x hx hx0 => ?_⟩, fun hw => ?_⟩
  · rw [chain_accept h w r hua hm]
    exact PanicRecovery_of_returned h w r x hx
  · rw [chain_accept h w r hua hm]
    simp [PanicRecovery, hx, Outcome.exchange, cerrors.JSON, emissions_append, emissions, hx0,
      StatusInternalServerError]
  · by_cases hacc : r.UserAgent ≠ "" ∧
        (r.Method = "GET" ∨ r.Method = "HEAD" ∨ r.Method = "OPTIONS")
    · obtain ⟨x, hx⟩ := DicewareHandler_returns g rt w r
      have hem := DicewareHandler_emissions g rt w r hw
      rw [chain_accept _ w r hacc.1 hacc.2,
        PanicRecovery_of_returned _ w r x hx]
      rw [hx] at hem
      simpa [Outcome.exchange, hfresh] using hem
    · apply hrejected
      by_cases hua : r.UserAgent = ""
      · exact Or.inl hua
      · refine Or.inr ⟨fun e => hacc ⟨hua, Or.inl e⟩, fun e => hacc ⟨hua, Or.inr (Or.inl e)⟩,
          fun e => hacc ⟨hua, Or.inr (Or.inr e)⟩⟩

/-- C11, at a concrete input: around a handler that panics before writing, a
GET request with a user agent gets exactly one emission, the 500 response. -/
theorem one_emission_per_request_witness :
    emissions (PanicRecovery (UserAgent (AcceptRequests (fun w _ => .panicked "boom" w)))
        { response := [], logger := [] }
        { Method := "GET", Header := [("User-Agent", "curl/8.0")],
          Query := [] }).exchange.response = 1 :=
  ((one_emission_per_request
      ⟨8, 128, 6, fun _ _ _ => .ok "correct-horse", fun _ _ _ _ _ => "x", fun _ => "1"⟩
      ⟨fun _ => "", false⟩ (fun w _ => .panicked "boom" w) { response := [], logger := [] }
      { Method := "GET", Header := [("User-Agent", "curl/8.0")], Query := [] } rfl).2.1
    (by decide) (by decide)).2 "boom" { response := [], logger := [] } rfl rfl |>.2

/-- C11 fails when the write of the body fails: around the diceware handler, a
GET request with a user agent whose body write returns an error gets the body
write and then an error response of code 500, two emissions, on a response
whose status line is already 200. It fails as well around a handler that
writes part of a body and panics: the 500 response is written after that part. -/
theorem two_emissions_on_failed_write :
    (PanicRecovery (UserAgent (AcceptRequests (fun w r =>
        (DicewareHandler.ServeHTTP
          ⟨8, 128, 6, fun _ _ _ => .ok "correct-horse", fun _ _ _ _ _ => "x", fun _ => "1"⟩
          ⟨fun _ => "", true⟩ w r).out)))
        { response := [], logger := [] }
        { Method := "GET", Header := [("User-Agent", "curl/8.0")], Query := [] })
      = .returned
          { response :=
              [Written.header "Content-Type" "text/plain", Written.body "correct-horse",
               Written.error
                { Code := 500, Message := "Cannot write response. Please try again later." }],
            logger := ["error writing response"] }
    ∧ emissions
        [Written.header "Content-Type" "text/plain", Written.body "correct-horse",
         Written.error
          { Code := 500, Message := "Cannot write response. Please try again later." }] = 2
    ∧ statusOf
        [Written.header "Content-Type" "text/plain", Written.body "correct-horse",
         Written.error
          { Code := 500, Message := "Cannot write response. Please try again later." }]
      = some 200
    ∧ (PanicRecovery (UserAgent (AcceptRequests (fun w _ =>
          .panicked "boom" { w with response := w.response ++ [.body "part"] })))
        { response := [], logger := [] }
        { Method := "GET", Header := [("User-Agent", "curl/8.0")], Query := [] })
      = .returned
          { response :=
              [Written.body "part",
               Written.error
                { Code := 500, Message := "Internal server error. Please try again later." }],
            logger := ["panic recovered: boom"] }
    ∧ emissions
        [Written.body "part",
         Written.error
          { Code := 500, Message := "Internal server error. Please try again later." }] = 2 := by
  decide

end handler
